import Mathlib

/-!
Shallow embedding of the calendar / document-store / chat-platform
synchronization service (`services/webhook/webhook.py` and, for the inbound
direction, `services/bot/bot.py`).

External HTTP collaborators (the Notion API, the Discord REST API, the
Google Calendar API) are modelled by response oracles bundled in a `World`
record, and every outbound request the code would issue is recorded in an
explicit call trace.  The module-level mutable maps of the source are
threaded as an explicit state record.  RFC3339 timestamp strings are
represented by their parsed values (a UTC instant plus a display offset),
which is faithful because the source only ever compares, shifts and
re-serializes them.
-/

namespace GcalSync

/-- Text fields subject to Python slicing (`s[:n]`) are modelled as
character lists, so that clipping is `List.take`. -/
abbrev Str := List Char

/-- Python truthiness of an optional string (`None` and `""` are falsy). -/
def pyTruthy : Option String → Bool
  | none => false
  | some s => s ≠ ""

/-- Python `a or b` on optional strings (with `""` falsy). -/
def pyOrOpt (a b : Option String) : Option String :=
  match a with
  | some s => if s ≠ "" then some s else b
  | none => b

/-- Python `a or d` for an optional text field with a default. -/
def pyOr (a : Option Str) (d : Str) : Str :=
  match a with
  | some s => if s ≠ [] then s else d
  | none => d

/-- Python `a or d` for an optional string with a string default. -/
def pyOrStr (a : Option String) (d : String) : String :=
  match a with
  | some s => if s ≠ "" then s else d
  | none => d

/-- Keep an optional string only when it is Python-truthy. -/
def truthyOpt : Option String → Option String
  | some s => if s = "" then none else some s
  | none => none

/-- A timezone-aware instant: minutes since a fixed epoch, in UTC, plus the
display offset in minutes.  Python's aware `datetime` comparison and
arithmetic act on the instant, i.e. on `utcMinutes`. -/
structure DT where
  utcMinutes : Int
  offsetMinutes : Int
deriving DecidableEq, Repr

def DT.addMinutes (d : DT) (m : Int) : DT := ⟨d.utcMinutes + m, d.offsetMinutes⟩

/-- `to_discord_iso`: convert to UTC (`astimezone(timezone.utc)`). -/
def toDiscordIso (d : DT) : DT := ⟨d.utcMinutes, 0⟩

/-- Python `str.strip()`. -/
def strip (s : Str) : Str :=
  ((s.dropWhile Char.isWhitespace).reverse.dropWhile Char.isWhitespace).reverse

/-- One of a Google event's `start` / `end` objects.  `dateTime` holds the
parsed RFC3339 value of the `dateTime` key if present and parseable,
`date` an all-day date as a day index (days since the epoch day). -/
structure TimePart where
  dateTime : Option DT := none
  date : Option Int := none
deriving DecidableEq, Repr

/-- A Google Calendar event as consumed by `upsert_event`.  A missing or
empty `id` is modelled as `""` (both are falsy in the source's guards). -/
structure GEvent where
  id : String := ""
  status : Option String := none
  summary : Option Str := none
  description : Option Str := none
  location : Option Str := none
  htmlLink : Option String := none
  creatorEmail : Option String := none
  start : TimePart := {}
  endPart : TimePart := {}
  updated : Option DT := none
deriving DecidableEq, Repr

/-- Environment-derived configuration of the webhook service; the defaults
mirror the source's env-var defaults. -/
structure Config where
  notionToken : Option String := some "tok"
  notionInternalDbId : Option String := some "internal-db"
  notionExternalDbId : Option String := some "external-db"
  googleCalendarId : Option String := some "cal"
  googleServiceOk : Bool := true
  discordSyncEnabled : Bool := true
  discordToken : Option String := some "dtok"
  discordGuildId : Option String := some "guild"
  appendGcalMarker : Bool := false
  nameLimit : Nat := 100
  descriptionLimit : Nat := 1000
  locationLimit : Nat := 100
  locationFallback : Str := "Google Calendar".toList
  cooldownSeconds : Int := 2

/-- `parse_google_event_times`' inner `parse_part`: a timed part wins; an
all-day date becomes midnight JST (+09:00) shifted by 9 h for a start and
1 h for an end. -/
def parsePart (p : TimePart) (isEnd : Bool) : Option DT :=
  match p.dateTime with
  | some dt => some dt
  | none =>
    match p.date with
    | some d => some ⟨d * 1440 - 540 + (if isEnd then 60 else 540), 540⟩
    | none => none

/-- `parse_google_event_times`: returns `(start, end)`; a missing end or an
end not after the start is replaced by start + 1 hour; a missing start
makes the whole result `none` (the source returns `(None, None)`). -/
def parseGoogleEventTimes (e : GEvent) : Option (DT × DT) :=
  match parsePart e.start false with
  | none => none
  | some s =>
    match parsePart e.endPart true with
    | some en =>
      if en.utcMinutes ≤ s.utcMinutes then some (s, s.addMinutes 60) else some (s, en)
    | none => some (s, s.addMinutes 60)

/-- The raw value placed into a Notion date property: the source passes the
`dateTime` or `date` string straight through, so we keep which one it was. -/
inductive RawTime
  | fromDateTime (dt : DT)
  | fromDate (d : Int)
deriving DecidableEq, Repr

/-- `build_notion_date`'s result: the `start` key, and the `end` key only
when the event supplied one. -/
structure NotionDate where
  start : RawTime
  endTime : Option RawTime
deriving DecidableEq, Repr

def rawOfPart (p : TimePart) : Option RawTime :=
  match p.dateTime with
  | some dt => some (.fromDateTime dt)
  | none =>
    match p.date with
    | some d => some (.fromDate d)
    | none => none

/-- `build_notion_date`: `{"start": start_iso}` plus `"end"` only when the
event has an end value; `None` when the start is missing. -/
def buildNotionDate (e : GEvent) : Option NotionDate :=
  match rawOfPart e.start with
  | none => none
  | some s => some ⟨s, rawOfPart e.endPart⟩

/-- The JSON body of a `notion_create_event` call. -/
structure NotionCreatePayload where
  dbId : Option String
  name : Str
  content : Str
  date : NotionDate
  messageId : String
  creatorId : String
  eventUrl : Option String
  googleEventId : Option String
  location : Option Str
deriving DecidableEq, Repr

/-- The properties of a `notion_update_event` call; a `none` field is
omitted from the PATCH body. -/
structure NotionUpdateProps where
  name : Option Str := none
  content : Option Str := none
  date : Option NotionDate := none
  eventUrl : Option String := none
  googleEventId : Option String := none
  pageUuid : Option String := none
  messageId : Option String := none
  location : Option Str := none
deriving DecidableEq, Repr

/-- The body of a Discord scheduled-event create / update
(`build_discord_payload`). -/
structure DiscordPayload where
  name : Str
  description : Str
  privacyLevel : Nat
  entityType : Nat
  scheduledStart : DT
  scheduledEnd : DT
  location : Str
deriving DecidableEq, Repr

/-- An item of the guild's scheduled-event listing, as read by the marker
scan. -/
structure DiscordListedEvent where
  id : Option String := none
  description : Str := []
deriving DecidableEq, Repr

/-- The shape of a Google Calendar `events().list` request: incremental
with `updatedMin`, or the unbounded full listing used on cursor expiry. -/
inductive GoogReq
  | delta (updatedMin : DT)
  | full
deriving DecidableEq, Repr

/-- Outcome of a Google listing call: a batch of events, the 410
`updatedMinTooLongAgo` error, or any other failure. -/
inductive GoogResp
  | ok (events : List GEvent)
  | err410
  | errOther
deriving DecidableEq, Repr

/-- One outbound request against an external store. -/
inductive Call
  | notionQueryByGoogleId (dbId googleEventId : String)
  | notionQueryByMessageId (dbId messageId : String)
  | notionGetPage (pageId : String)
  | notionCreate (p : NotionCreatePayload)
  | notionUpdate (pageId : String) (props : NotionUpdateProps)
  | notionArchive (pageId : String)
  | discordListEvents
  | discordCreate (p : DiscordPayload)
  | discordUpdate (eventId : String) (p : DiscordPayload)
  | discordDelete (eventId : String)
  | googleList (req : GoogReq)
deriving DecidableEq, Repr

/-- A fetched Notion page, reduced to what the reconciler reads from it:
its id and the extracted `メッセージID` rich-text (first node, stripped;
`none` when absent or empty, as `notion_extract_rich_text` returns). -/
structure Page where
  id : String
  messageId : Option String := none
deriving DecidableEq, Repr

/-- Response oracles for the three external collaborators, plus the clock.
A `none` / `false` response models an HTTP failure of that request. -/
structure World where
  nowUtcMinutes : Int := 0
  endEpochSeconds : Int := 0
  notionGetPage : String → Option Page := fun _ => none
  notionQueryByGoogleId : String → String → Option Page := fun _ _ => none
  notionQueryByMessageId : String → String → Option Page := fun _ _ => none
  notionCreateResp : NotionCreatePayload → Option String := fun _ => none
  notionUpdateOk : String → NotionUpdateProps → Bool := fun _ _ => true
  notionArchiveOk : String → Bool := fun _ => true
  discordCreateResp : DiscordPayload → Option (Option String) := fun _ => none
  discordUpdateResp : String → DiscordPayload → Option (Option String) := fun _ _ => none
  discordDeleteOk : String → Bool := fun _ => true
  discordListResp : Option (List DiscordListedEvent) := none
  googleList : GoogReq → GoogResp := fun _ => .ok []
  upsertRaises : GEvent → Bool := fun _ => false

/-- The persisted module-level maps of the webhook service. -/
structure St where
  gcalDiscordMap : String → Option String := fun _ => none
  notionInternalMap : String → Option String := fun _ => none
  notionExternalMap : String → Option String := fun _ => none
  cursor : Option DT := none

def mapSet (m : String → Option String) (k v : String) : String → Option String :=
  fun x => if x = k then some v else m x

def mapRemove (m : String → Option String) (k : String) : String → Option String :=
  fun x => if x = k then none else m x

inductive NotionScope
  | internal
  | external
deriving DecidableEq, Repr

/-- `get_notion_page_id_by_google_id`. -/
def getNotionPageIdByGoogleId (st : St) (gid : String) (scope : NotionScope) :
    Option String :=
  if gid = "" then none
  else
    match scope with
    | .internal => st.notionInternalMap gid
    | .external => st.notionExternalMap gid

/-- `set_notion_page_id_by_google_id`. -/
def setNotionPageIdByGoogleId (st : St) (gid pid : String) (scope : NotionScope) : St :=
  if gid = "" ∨ pid = "" then st
  else
    match scope with
    | .internal => { st with notionInternalMap := mapSet st.notionInternalMap gid pid }
    | .external => { st with notionExternalMap := mapSet st.notionExternalMap gid pid }

/-- `remove_notion_page_id_by_google_id`. -/
def removeNotionPageIdByGoogleId (st : St) (gid : String) (scope : NotionScope) : St :=
  if gid = "" then st
  else
    match scope with
    | .internal => { st with notionInternalMap := mapRemove st.notionInternalMap gid }
    | .external => { st with notionExternalMap := mapRemove st.notionExternalMap gid }

/-- `get_discord_event_id_by_google_id`. -/
def getDiscordEventIdByGoogleId (st : St) (gid : String) : Option String :=
  if gid = "" then none else st.gcalDiscordMap gid

/-- `set_discord_event_id_by_google_id`. -/
def setDiscordEventIdByGoogleId (st : St) (gid did : String) : St :=
  if gid = "" ∨ did = "" then st
  else { st with gcalDiscordMap := mapSet st.gcalDiscordMap gid did }

/-- `remove_discord_event_id_by_google_id`. -/
def removeDiscordEventIdByGoogleId (st : St) (gid : String) : St :=
  if gid = "" then st
  else { st with gcalDiscordMap := mapRemove st.gcalDiscordMap gid }

/-- `discord_sync_available`. -/
def discordSyncAvailable (cfg : Config) : Bool :=
  cfg.discordSyncEnabled && pyTruthy cfg.discordToken && pyTruthy cfg.discordGuildId

/-- `notion_extract_rich_text(page, NOTION_PROP_MESSAGE_ID)`; `None` on a
missing page. -/
def notionExtractMessageId : Option Page → Option String
  | none => none
  | some p => p.messageId

/-- The origin marker `"[gcal-id:" + google_event_id + "]"`. -/
def discordOriginMarker (gid : String) : Str :=
  "[gcal-id:".toList ++ gid.toList ++ "]".toList

/-- `build_discord_description`: strip, optionally append the origin
marker, and clip to the description limit. -/
def buildDiscordDescription (cfg : Config) (description : Option Str) (gid : String) :
    Str :=
  let base := strip (match description with | some s => s | none => [])
  let text :=
    if cfg.appendGcalMarker then
      let marker := discordOriginMarker gid
      if base ≠ [] then base ++ "\n\n".toList ++ marker else marker
    else base
  text.take cfg.descriptionLimit

/-- `build_discord_payload`. -/
def buildDiscordPayload (cfg : Config) (e : GEvent) : Option DiscordPayload :=
  if e.id = "" then none
  else
    match parseGoogleEventTimes e with
    | none => none
    | some (s, en) =>
      let location := strip (pyOr e.location cfg.locationFallback)
      some
        { name := (pyOr e.summary "(no title)".toList).take cfg.nameLimit
          description := buildDiscordDescription cfg e.description e.id
          privacyLevel := 2
          entityType := 3
          scheduledStart := toDiscordIso s
          scheduledEnd := toDiscordIso en
          location := location.take cfg.locationLimit }

/-- Does `pat` occur at the head of `s`? (helper for Python's `in`). -/
def startsWithSeq : List Char → List Char → Bool
  | [], _ => true
  | _ :: _, [] => false
  | a :: ps, b :: ss => a = b && startsWithSeq ps ss

/-- Python's substring test `pat in s`. -/
def hasSubSeq (pat : List Char) : List Char → Bool
  | [] => pat.isEmpty
  | s@(_ :: rest) => startsWithSeq pat s || hasSubSeq pat rest

/-- The loop of `find_discord_event_id_by_google_marker`: first listed
event whose description contains the marker and whose id is truthy. -/
def scanForMarker (marker : Str) : List DiscordListedEvent → Option String
  | [] => none
  | item :: rest =>
    if hasSubSeq marker item.description then
      match item.id with
      | some found => if found ≠ "" then some found else scanForMarker marker rest
      | none => scanForMarker marker rest
    else scanForMarker marker rest

/-- `find_discord_event_id_by_google_marker`: disabled unless the marker
mode is on and Discord sync is available; otherwise lists the guild's
scheduled events and scans their descriptions. -/
def findDiscordEventIdByGoogleMarker (cfg : Config) (w : World) (gid : String) :
    Option String × List Call :=
  if ¬ cfg.appendGcalMarker then (none, [])
  else if ¬ discordSyncAvailable cfg || gid = "" then (none, [])
  else
    match w.discordListResp with
    | none => (none, [.discordListEvents])
    | some items => (scanForMarker (discordOriginMarker gid) items, [.discordListEvents])

/-- The mirror-id resolution step of `sync_to_discord`: the Notion page
hint's `メッセージID` (with the fallback page when the first is not
truthy), then the persisted map, then the optional marker scan (a
discovered id is persisted into the map). -/
def syncToDiscordResolve (cfg : Config) (w : World) (st : St) (gid : String)
    (notionPage fallbackNotionPage : Option Page) :
    Option String × St × List Call :=
  let nid0 := notionExtractMessageId notionPage
  let notionDiscordId :=
    if pyTruthy nid0 then nid0
    else
      match fallbackNotionPage with
      | some _ => notionExtractMessageId fallbackNotionPage
      | none => nid0
  let discordEventId := pyOrOpt notionDiscordId (getDiscordEventIdByGoogleId st gid)
  if ¬ pyTruthy discordEventId then
    let scan := findDiscordEventIdByGoogleMarker cfg w gid
    match scan.1 with
    | some d0 => (some d0, setDiscordEventIdByGoogleId st gid d0, scan.2)
    | none => (discordEventId, st, scan.2)
  else (discordEventId, st, [])

/-- The create/update step of `sync_to_discord` for an active event: an
existing mirror is updated in place (a failed update never falls back to
a create); otherwise a create is attempted and a returned truthy id is
persisted. -/
def syncToDiscordAct (cfg : Config) (w : World) (st1 : St) (event : GEvent)
    (gid : String) (discordEventId : Option String) :
    St × Option String × List Call :=
  let createFlow : St × Option String × List Call :=
    match buildDiscordPayload cfg event with
    | none => (st1, none, [])
    | some p =>
      match w.discordCreateResp p with
      | some idField =>
        match truthyOpt idField with
        | some rid =>
          (setDiscordEventIdByGoogleId st1 gid rid, some rid, [.discordCreate p])
        | none => (st1, none, [.discordCreate p])
      | none => (st1, none, [.discordCreate p])
  match discordEventId with
  | some did =>
    if did = "" then createFlow
    else
      match buildDiscordPayload cfg event with
      | none => (st1, none, [])
      | some p =>
        match w.discordUpdateResp did p with
        | some respId =>
          let resolvedId := pyOrStr respId did
          (setDiscordEventIdByGoogleId st1 gid resolvedId, some resolvedId,
            [.discordUpdate did p])
        | none => (st1, none, [.discordUpdate did p])
  | none => createFlow

/-- `sync_to_discord`: resolve the Discord event id (Notion page hint,
then the persisted map, then the optional marker scan), delete on a
cancelled event (skipping when unresolved, never creating), update an
existing mirror (never falling back to create on update failure),
otherwise create.  Returns the new state, the resolved Discord id (on
create/update success) and the request trace. -/
def syncToDiscord (cfg : Config) (w : World) (st : St) (event : GEvent)
    (notionPage : Option Page) (fallbackNotionPage : Option Page := none) :
    St × Option String × List Call :=
  if ¬ discordSyncAvailable cfg then (st, none, [])
  else if event.id = "" then (st, none, [])
  else
    let gid := event.id
    let r := syncToDiscordResolve cfg w st gid notionPage fallbackNotionPage
    let discordEventId := r.1
    let st1 := r.2.1
    let calls1 := r.2.2
    if event.status = some "cancelled" then
      let delCalls :=
        match discordEventId with
        | some did => if did ≠ "" then [Call.discordDelete did] else []
        | none => []
      (removeDiscordEventIdByGoogleId st1 gid, none, calls1 ++ delCalls)
    else
      let a := syncToDiscordAct cfg w st1 event gid discordEventId
      (a.1, a.2.1, calls1 ++ a.2.2)

/-- `notion_find_by_google_event_id`: query the target database (the
argument, defaulting to the internal one) by the Google-event-id column;
no request when no target database is configured. -/
def notionFindByGoogleEventId (cfg : Config) (w : World) (gid : String)
    (dbId : Option String) : Option Page × List Call :=
  match pyOrOpt dbId cfg.notionInternalDbId with
  | some db =>
    if db = "" then (none, [])
    else (w.notionQueryByGoogleId db gid, [.notionQueryByGoogleId db gid])
  | none => (none, [])

/-- `notion_find_by_message_id`: query a database by the `メッセージID`
column; no request when the database or the key is falsy. -/
def notionFindByMessageId (w : World) (mid : String) (dbId : Option String) :
    Option Page × List Call :=
  match dbId with
  | some db =>
    if db = "" ∨ mid = "" then (none, [])
    else (w.notionQueryByMessageId db mid, [.notionQueryByMessageId db mid])
  | none => (none, [])

/-- `notion_get_page`: fetch one page by id (no request on a falsy id). -/
def notionGetPageCall (w : World) (pid : String) : Option Page × List Call :=
  if pid = "" then (none, [])
  else (w.notionGetPage pid, [.notionGetPage pid])

/-- `notion_create_event`: POST the page; on success the source immediately
PATCHes the fresh page's own id into its `ページID` property. -/
def notionCreateEvent (cfg : Config) (w : World) (name content : Str)
    (date : NotionDate) (creatorId : String) (eventUrl : Option String)
    (googleEventId : Option String) (location : Option Str)
    (dbId : Option String) (messageId : Option String) :
    Option String × List Call :=
  let payload : NotionCreatePayload :=
    { dbId := pyOrOpt dbId cfg.notionInternalDbId
      name := name, content := content, date := date
      messageId := match messageId with | some m => m | none => ""
      creatorId := creatorId, eventUrl := eventUrl
      googleEventId := googleEventId, location := location }
  match w.notionCreateResp payload with
  | some pageId =>
    (some pageId, [.notionCreate payload, .notionUpdate pageId { pageUuid := some pageId }])
  | none => (none, [.notionCreate payload])

/-- `notion_update_event` (webhook side): PATCH the non-`none` fields. -/
def notionUpdateEvent (w : World) (pid : String) (props : NotionUpdateProps) :
    Bool × List Call :=
  (w.notionUpdateOk pid props, [.notionUpdate pid props])

/-- `notion_archive_page`: PATCH `archived: true` (nothing on a missing
page). -/
def notionArchivePageCall (w : World) (page : Option Page) : Bool × List Call :=
  match page with
  | none => (false, [])
  | some p => (w.notionArchiveOk p.id, [.notionArchive p.id])

/-- The internal-mirror resolution of `upsert_event`: persisted map, page
fetch (dropping a stale mapping), then direct query by Google event id
(persisting a rediscovered id). -/
def resolveInternalPage (cfg : Config) (w : World) (st : St) (gid : String) :
    Option Page × St × List Call :=
  let r0 : Option Page × St × List Call :=
    match getNotionPageIdByGoogleId st gid .internal with
    | some pid =>
      let g := notionGetPageCall w pid
      match g.1 with
      | some p => (some p, st, g.2)
      | none => (none, removeNotionPageIdByGoogleId st gid .internal, g.2)
    | none => (none, st, [])
  match r0.1 with
  | some p => (some p, r0.2.1, r0.2.2)
  | none =>
    let q := notionFindByGoogleEventId cfg w gid cfg.notionInternalDbId
    match q.1 with
    | some p =>
      (some p, setNotionPageIdByGoogleId r0.2.1 gid p.id .internal, r0.2.2 ++ q.2)
    | none => (none, r0.2.1, r0.2.2 ++ q.2)

/-- The external-mirror resolution of `upsert_event`: only when an external
database is configured; map, page fetch, query by message id, then (for
legacy data) by Google event id. -/
def resolveExternalPage (cfg : Config) (w : World) (st : St) (gid : String) :
    Option Page × St × List Call :=
  if ¬ pyTruthy cfg.notionExternalDbId then (none, st, [])
  else
    let r0 : Option Page × St × List Call :=
      match getNotionPageIdByGoogleId st gid .external with
      | some pid =>
        let g := notionGetPageCall w pid
        match g.1 with
        | some p => (some p, st, g.2)
        | none => (none, removeNotionPageIdByGoogleId st gid .external, g.2)
      | none => (none, st, [])
    match r0.1 with
    | some p => (some p, r0.2.1, r0.2.2)
    | none =>
      let q1 := notionFindByMessageId w gid cfg.notionExternalDbId
      let q2 : Option Page × List Call :=
        match q1.1 with
        | some p => (some p, ([] : List Call))
        | none => notionFindByGoogleEventId cfg w gid cfg.notionExternalDbId
      match q2.1 with
      | some p =>
        (some p, setNotionPageIdByGoogleId r0.2.1 gid p.id .external,
          r0.2.2 ++ q1.2 ++ q2.2)
      | none => (none, r0.2.1, r0.2.2 ++ q1.2 ++ q2.2)

/-- The external-database upsert phase of an active event: update the
resolved external page, or create a fresh one keyed by the Google event
id in its `メッセージID` column; skipped entirely when no external
database is configured. -/
def upsertExternalPhase (cfg : Config) (w : World) (st : St) (gid : String)
    (name content : Str) (dateProp : NotionDate) (creatorId : String)
    (externalPage : Option Page) : Option Page × St × List Call :=
  if pyTruthy cfg.notionExternalDbId then
    match externalPage with
    | some p =>
      let props : NotionUpdateProps :=
        { name := some name, content := some content, date := some dateProp
          messageId := some gid }
      let u := notionUpdateEvent w p.id props
      let st' := if u.1 then setNotionPageIdByGoogleId st gid p.id .external else st
      (some p, st', u.2)
    | none =>
      let cr :=
        notionCreateEvent cfg w name content dateProp creatorId none none none
          cfg.notionExternalDbId (some gid)
      match cr.1 with
      | some pid =>
        (some (⟨pid, none⟩ : Page), setNotionPageIdByGoogleId st gid pid .external,
          cr.2)
      | none => (none, st, cr.2)
  else (externalPage, st, ([] : List Call))

/-- Writing the resolved Discord id back into a Notion page's
`メッセージID` property (`if page and discord_event_id:`). -/
def msgIdWriteBack (w : World) (pg : Option Page) (dopt : Option String) :
    List Call :=
  match pg, dopt with
  | some p, some did =>
    if did ≠ "" then (notionUpdateEvent w p.id { messageId := some did }).2 else []
  | _, _ => []

/-- The tail of `upsert_event` for an active event: external-database
upsert, Discord mirroring, and writing the resolved Discord id back into
both Notion pages' `メッセージID` property. -/
def upsertActiveTail (cfg : Config) (w : World) (st : St) (event : GEvent)
    (name content : Str) (dateProp : NotionDate) (creatorId : String)
    (page externalPage : Option Page) : St × List Call :=
  let gid := event.id
  let ext :=
    upsertExternalPhase cfg w st gid name content dateProp creatorId externalPage
  let d := syncToDiscord cfg w ext.2.1 event page
  let tail1 := msgIdWriteBack w page d.2.1
  let tail2 := msgIdWriteBack w ext.1 d.2.1
  (d.1, ext.2.2 ++ d.2.2 ++ tail1 ++ tail2)

/-- `upsert_event`: mirror one Google event into Notion (internal and
external databases) and Discord.  A cancelled event archives the resolved
mirrors, removes the correlation entries and deletes the Discord mirror;
an active event is created (unless it already ended, for the internal
database) or updated in place. -/
def upsertEvent (cfg : Config) (w : World) (st : St) (event : GEvent) :
    St × List Call :=
  if event.id = "" then (st, [])
  else
    let gid := event.id
    let ri := resolveInternalPage cfg w st gid
    let page := ri.1
    let st1 := ri.2.1
    let calls1 := ri.2.2
    let re := resolveExternalPage cfg w st1 gid
    let externalPage := re.1
    let st2 := re.2.1
    let calls2 := re.2.2
    if event.status = some "cancelled" then
      let a1 : St × List Call :=
        match page with
        | some p =>
          (removeNotionPageIdByGoogleId st2 gid .internal,
            (notionArchivePageCall w (some p)).2)
        | none => (st2, [])
      let a2 : St × List Call :=
        match externalPage with
        | some p =>
          (removeNotionPageIdByGoogleId a1.1 gid .external,
            (notionArchivePageCall w (some p)).2)
        | none => (a1.1, [])
      let d := syncToDiscord cfg w a2.1 event page externalPage
      (d.1, calls1 ++ calls2 ++ a1.2 ++ a2.2 ++ d.2.2)
    else
      let name := pyOr event.summary "(no title)".toList
      let content := pyOr event.description "(no content)".toList
      let eventUrl := event.htmlLink
      let location := event.location
      let creatorId := pyOrStr event.creatorEmail "unknown"
      let endDt := (parseGoogleEventTimes event).map Prod.snd
      let skipInternalCreate :=
        page.isNone &&
          (match endDt with
            | some e => decide (e.utcMinutes ≤ w.nowUtcMinutes)
            | none => false)
      match buildNotionDate event with
      | none => (st2, calls1 ++ calls2)
      | some dateProp =>
        match page with
        | some p =>
          let props : NotionUpdateProps :=
            { name := some name, content := some content, date := some dateProp
              eventUrl := eventUrl, googleEventId := some gid, location := location }
          let u := notionUpdateEvent w p.id props
          let st3 := if u.1 then setNotionPageIdByGoogleId st2 gid p.id .internal else st2
          let t :=
            upsertActiveTail cfg w st3 event name content dateProp creatorId
              (some p) externalPage
          (t.1, calls1 ++ calls2 ++ u.2 ++ t.2)
        | none =>
          if skipInternalCreate then
            let t :=
              upsertActiveTail cfg w st2 event name content dateProp creatorId
                none externalPage
            (t.1, calls1 ++ calls2 ++ t.2)
          else
            let cr :=
              notionCreateEvent cfg w name content dateProp creatorId eventUrl
                (some gid) location cfg.notionInternalDbId (some "")
            match cr.1 with
            | none => (st2, calls1 ++ calls2 ++ cr.2)
            | some pid =>
              let st3 := setNotionPageIdByGoogleId st2 gid pid .internal
              let t :=
                upsertActiveTail cfg w st3 event name content dateProp creatorId
                  (some (⟨pid, none⟩ : Page)) externalPage
              (t.1, calls1 ++ calls2 ++ cr.2 ++ t.2)

/-- Python `max` over the parsed `updated` stamps (first maximum kept). -/
def maxDT : List DT → Option DT
  | [] => none
  | d :: ds => some (ds.foldl (fun acc x => if acc.utcMinutes < x.utcMinutes then x else acc) d)

/-- `list_updated_events`: incremental listing from the cursor (first run:
a 30-day lookback; otherwise the cursor rewound by two minutes); on the
410 `updatedMinTooLongAgo` error, retry as an unbounded full listing; any
other failure yields an empty batch. -/
def listUpdatedEvents (cfg : Config) (w : World) (updatedMin : Option DT) :
    List GEvent × List Call :=
  if ¬ cfg.googleServiceOk || ¬ pyTruthy cfg.googleCalendarId then ([], [])
  else
    let um : DT :=
      match updatedMin with
      | none => ⟨w.nowUtcMinutes - 30 * 1440, 0⟩
      | some dt => dt.addMinutes (-2)
    match w.googleList (.delta um) with
    | .ok evs => (evs, [.googleList (.delta um)])
    | .err410 =>
      match w.googleList .full with
      | .ok evs => (evs, [.googleList (.delta um), .googleList .full])
      | _ => ([], [.googleList (.delta um), .googleList .full])
    | .errOther => ([], [.googleList (.delta um)])

/-- One iteration of `sync_calendar`'s event loop: an exception raised by
the upsert (modelled by the `upsertRaises` oracle, a failure at entry) is
caught, marks the pass failed, and the loop continues. -/
def syncStep (cfg : Config) (w : World) (acc : St × Bool × List Call)
    (ev : GEvent) : St × Bool × List Call :=
  if w.upsertRaises ev then (acc.1, true, acc.2.2)
  else
    let u := upsertEvent cfg w acc.1 ev
    (u.1, acc.2.1, acc.2.2 ++ u.2)

/-- `sync_calendar`: check required configuration, list the changed
events, upsert each one (per-event failures are caught), then persist the
next cursor (the maximum `updated` stamp, defaulting to now). -/
def syncCalendar (cfg : Config) (w : World) (st : St) : Bool × St × List Call :=
  if ¬ (pyTruthy cfg.notionToken && pyTruthy cfg.notionInternalDbId
        && pyTruthy cfg.googleCalendarId) then
    (false, st, [])
  else
    let L := listUpdatedEvents cfg w st.cursor
    let events := L.1
    let folded := events.foldl (syncStep cfg w) (st, false, [])
    let nextCursor :=
      match maxDT (events.filterMap GEvent.updated) with
      | some m => m
      | none => ⟨w.nowUtcMinutes, 0⟩
    (¬ folded.2.1, { folded.1 with cursor := some nextCursor }, L.2 ++ folded.2.2)

/-- The coordinator state seen by one trigger: the last completed-run
epoch, and whether another thread currently holds the sync lock. -/
structure CoordFnState where
  lastRunEpoch : Int := 0
  lockHeld : Bool := false
deriving DecidableEq, Repr

inductive SyncReason
  | done
  | cooldown
  | inProgress
deriving DecidableEq, Repr

/-- `run_sync_guarded`: skip inside the cooldown window since the last
completed run; drop the trigger when the non-blocking lock acquisition
fails; otherwise run the pass with the lock held, record the completion
epoch, and release the lock in the `finally` block (the returned state's
`lockHeld` is the caller's own view, unchanged: the lock this call took is
released again). -/
def runSyncGuarded (cfg : Config) (w : World) (st : St) (co : CoordFnState)
    (now : Int) : Bool × SyncReason × St × CoordFnState × List Call :=
  if now - co.lastRunEpoch < max 0 cfg.cooldownSeconds then
    (true, .cooldown, st, co, [])
  else if co.lockHeld then
    (true, .inProgress, st, co, [])
  else
    let (synced, st', calls) := syncCalendar cfg w st
    (synced, .done, st', { co with lastRunEpoch := w.endEpochSeconds }, calls)

/-- The bounded duplicate guard: the deque of recent tokens (oldest first)
plus its mirror membership set. -/
structure DedupSt where
  maxlen : Nat
  ids : List String := []
  idSet : Finset String := ∅
deriving DecidableEq

/-- Module initialization: the deque capacity is `max(100, DEDUPE_MAX_IDS)`. -/
def mkDedupState (dedupeMaxIds : Nat) : DedupSt :=
  ⟨max 100 dedupeMaxIds, [], ∅⟩

/-- `register_message_id`: `True` when the token was already seen;
otherwise insert it, evicting the oldest token (deque overflow discards
the head, which is first removed from the mirror set). -/
def registerMessageId (st : DedupSt) (mid : String) : Bool × DedupSt :=
  if mid = "" then (false, st)
  else if mid ∈ st.idSet then (true, st)
  else
    let setAfterEvict :=
      if st.ids.length = st.maxlen then
        match st.ids with
        | oldest :: _ => st.idSet.erase oldest
        | [] => st.idSet
      else st.idSet
    let idsAfter :=
      if st.ids.length = st.maxlen then st.ids.tail ++ [mid] else st.ids ++ [mid]
    (false, { st with ids := idsAfter, idSet := insert mid setAfterEvict })

/-- The Google push-notification headers read by the webhook endpoint. -/
structure WebhookHeaders where
  googChannel : Option String := none
  googMessageNum : Option String := none
  googState : Option String := none

/-- The `/gcal/webhook` endpoint: duplicate notifications (by channel id
and message number) are dropped with 204; a skipped pass returns 204; an
executed pass returns 204 on success and 500 on failure. -/
def gcalWebhook (cfg : Config) (w : World) (st : St) (dd : DedupSt)
    (co : CoordFnState) (now : Int) (hdr : WebhookHeaders) :
    Nat × St × DedupSt × CoordFnState × List Call :=
  let dedupeKey :=
    match hdr.googChannel, hdr.googMessageNum with
    | some ch, some num =>
      if ch ≠ "" && num ≠ "" then some ("goog:" ++ ch ++ ":" ++ num) else none
    | _, _ => none
  match dedupeKey with
  | some key =>
    let (dup, dd') := registerMessageId dd key
    if dup then (204, st, dd', co, [])
    else
      let (synced, reason, st', co', calls) := runSyncGuarded cfg w st co now
      (if reason ≠ SyncReason.done then 204 else if synced then 204 else 500,
        st', dd', co', calls)
  | none =>
    let (synced, reason, st', co', calls) := runSyncGuarded cfg w st co now
    (if reason ≠ SyncReason.done then 204 else if synced then 204 else 500,
      st', dd, co', calls)

/-- The `/gcal/sync` manual endpoint: 200 when the guarded run reports
success (including skipped passes), 500 otherwise. -/
def manualSync (cfg : Config) (w : World) (st : St) (co : CoordFnState)
    (now : Int) : Nat × St × CoordFnState × List Call :=
  let (synced, _, st', co', calls) := runSyncGuarded cfg w st co now
  (if synced then 200 else 500, st', co', calls)

/-- Classification of trace entries: create calls. -/
def Call.isCreate : Call → Bool
  | .notionCreate _ => true
  | .discordCreate _ => true
  | _ => false

/-- Classification of trace entries: update calls. -/
def Call.isUpdateCall : Call → Bool
  | .notionUpdate _ _ => true
  | .discordUpdate _ _ => true
  | _ => false

/-- Classification of trace entries: archive calls against a page id. -/
def Call.isArchiveOf (pid : String) : Call → Bool
  | .notionArchive q => q = pid
  | _ => false

/-- Classification of trace entries: a Notion create against a database. -/
def Call.isNotionCreateIn (db : Option String) : Call → Bool
  | .notionCreate p => p.dbId = db
  | _ => false

/-- Classification of trace entries: any Notion create. -/
def Call.isNotionCreate : Call → Bool
  | .notionCreate _ => true
  | _ => false

/-- Classification of trace entries: a Discord create. -/
def Call.isDiscordCreate : Call → Bool
  | .discordCreate _ => true
  | _ => false

/-- Classification of trace entries: a Discord delete. -/
def Call.isDiscordDelete : Call → Bool
  | .discordDelete _ => true
  | _ => false

/-- Classification of trace entries: the unbounded full Google listing. -/
def Call.isGoogleFull : Call → Bool
  | .googleList .full => true
  | _ => false

/-- Classification of trace entries: requests against the Discord API. -/
def Call.isDiscordSide : Call → Bool
  | .discordListEvents => true
  | .discordCreate _ => true
  | .discordUpdate _ _ => true
  | .discordDelete _ => true
  | _ => false

/-- Register a whole sequence of tokens with the duplicate guard. -/
def registerAll (st : DedupSt) (ts : List String) : DedupSt :=
  ts.foldl (fun s t => (registerMessageId s t).2) st

/-! Concrete fixtures for counterexamples and witnesses. -/

/-- The default configuration (all environment defaults, every
collaborator configured). -/
def cxCfg : Config := {}

def c1World : World :=
  { nowUtcMinutes := 10000
    notionCreateResp := fun _ => some "np1"
    discordCreateResp := fun _ => some (some "d1") }

/-- An active event that ended at UTC minute 60, long before `now`. -/
def c1Event : GEvent :=
  { id := "g1"
    status := some "confirmed"
    summary := some "hi".toList
    start := { dateTime := some ⟨0, 540⟩ }
    endPart := { dateTime := some ⟨60, 540⟩ } }

def c2St : St :=
  { notionInternalMap := fun k => if k = "g1" then some "ip" else none
    notionExternalMap := fun k => if k = "g1" then some "ep" else none }

def c2World : World :=
  { notionGetPage := fun pid =>
      if pid = "ip" then some ⟨"ip", none⟩
      else if pid = "ep" then some ⟨"ep", none⟩ else none }

/-- A cancelled calendar event whose two document-store mirrors resolve. -/
def c2Event : GEvent := { id := "g1", status := some "cancelled" }

def c6World : World :=
  { googleList := fun _ => .errOther
    endEpochSeconds := 7 }

def c6St : St := { cursor := some ⟨5000, 0⟩ }

def c6Co : CoordFnState := { lastRunEpoch := -100 }

def c7World : World := { nowUtcMinutes := 50000 }

/-- A world whose incremental listing always reports cursor expiry and
whose full listing carries the single cancelled event `c2Event`, with both
of that event's document-store mirrors resolvable. -/
def c7cWorld : World :=
  { notionGetPage := fun pid =>
      if pid = "ip" then some ⟨"ip", none⟩
      else if pid = "ep" then some ⟨"ep", none⟩ else none
    googleList := fun r =>
      match r with
      | .delta _ => GoogResp.err410
      | .full => GoogResp.ok [c2Event] }

def c8Payload : NotionCreatePayload :=
  { dbId := some "external-db"
    name := "t".toList
    content := List.replicate 2001 'a'
    date := ⟨.fromDateTime ⟨0, 0⟩, none⟩
    messageId := ""
    creatorId := "c"
    eventUrl := none
    googleEventId := none
    location := none }

def c8Event : GEvent :=
  { id := "g8"
    status := some "confirmed"
    description := some (List.replicate 2001 'a')
    start := { dateTime := some ⟨0, 0⟩ } }

/-- The spec's scenario event: start 2024-03-01T10:00+09:00 (encoded as
UTC minute 86460 with offset +540), no end, active. -/
def c9Event : GEvent :=
  { id := "g9"
    status := some "confirmed"
    summary := some "Sprint Review".toList
    start := { dateTime := some ⟨86460, 540⟩ } }

def c10Page : Page := ⟨"ip", some "d77"⟩

/-- The Discord payload built from `c10Event` under the default limits. -/
def c10Payload : DiscordPayload :=
  { name := "(no title)".toList
    description := []
    privacyLevel := 2
    entityType := 3
    scheduledStart := ⟨0, 0⟩
    scheduledEnd := ⟨60, 0⟩
    location := "Google Calendar".toList }

def c10World : World := { discordUpdateResp := fun _ _ => none }

def c10Event : GEvent :=
  { id := "g1"
    status := some "confirmed"
    start := { dateTime := some ⟨0, 0⟩ } }

/-- The phase of one trigger thread with respect to the sync lock:
it has not tried yet, it runs the pass holding the lock, it was dropped by
the non-blocking acquisition (or the cooldown check), or it finished and
released the lock. -/
inductive TPhase
  | idle
  | running
  | dropped
  | finished
deriving DecidableEq, Repr

/-- The shared coordinator: the `threading.Lock` plus the phase of each
trigger thread. -/
structure CoordSys (n : Nat) where
  lock : Bool
  threads : Fin n → TPhase

/-- Interleaving semantics of `run_sync_guarded`'s lock discipline: the
non-blocking `acquire` atomically takes a free lock or drops the trigger;
the cooldown check drops a trigger without touching the lock; the
`finally` block always releases a held lock. -/
inductive CoordStep {n : Nat} : CoordSys n → CoordSys n → Prop
  | acquireOk (s : CoordSys n) (i : Fin n) :
      s.threads i = .idle → s.lock = false →
      CoordStep s ⟨true, Function.update s.threads i .running⟩
  | acquireBusy (s : CoordSys n) (i : Fin n) :
      s.threads i = .idle → s.lock = true →
      CoordStep s ⟨true, Function.update s.threads i .dropped⟩
  | cooldownSkip (s : CoordSys n) (i : Fin n) :
      s.threads i = .idle →
      CoordStep s ⟨s.lock, Function.update s.threads i .dropped⟩
  | release (s : CoordSys n) (i : Fin n) :
      s.threads i = .running →
      CoordStep s ⟨false, Function.update s.threads i .finished⟩

/-- The initial coordinator: lock free, every trigger still idle. -/
def coordInit (n : Nat) : CoordSys n := ⟨false, fun _ => .idle⟩

/-- Reachability under interleaved trigger steps. -/
def CoordReach {n : Nat} : CoordSys n → CoordSys n → Prop :=
  Relation.ReflTransGen CoordStep

/-- The coordinator invariant: at most one thread runs a pass, and a free
lock means no pass is running. -/
def coordInv {n : Nat} (s : CoordSys n) : Prop :=
  (∀ i j : Fin n, s.threads i = .running → s.threads j = .running → i = j) ∧
  (s.lock = false → ∀ i : Fin n, s.threads i ≠ .running)

end GcalSync

namespace DiscordBot

open GcalSync (DT)

/-- A Discord scheduled event as seen by the inbound handlers.
`creatorId` is the raw `creator_id` attribute; `creatorObjId` is
`event.creator.id` when a `creator` object is attached. -/
structure DiscordEvent where
  id : Nat
  name : String := ""
  description : Option String := none
  startTime : DT := ⟨0, 0⟩
  endTime : Option DT := none
  creatorId : Option Int := none
  creatorObjId : Option Int := none
  url : Option String := none
  guildId : Option Nat := none
  location : Option String := none
  metaLocation : Option String := none
deriving DecidableEq, Repr

/-- Configuration of the bot process; `botUser` is `bot.user` (the bot's
own identity once logged in). -/
structure BotConfig where
  botUser : Option Int := none
  googleServiceOk : Bool := true
  notionInternalDbId : Option String := some "internal-db"
  notionExternalDbId : Option String := some "external-db"

/-- A Notion page as read by the inbound handlers: its id, the raw
`メッセージID` rich-text content, and the extracted `GoogleイベントID`. -/
structure BotPage where
  id : String
  messageId : Option String := none
  googleEventId : Option String := none
deriving DecidableEq, Repr

/-- One outbound request of the inbound (Discord → Google/Notion)
direction. -/
inductive BotCall
  | googleInsert (name description : String) (startDt endDt : DT)
      (location : Option String)
  | googlePatch (eventId : String) (name description : String)
      (startDt endDt : DT) (location : Option String)
  | googleDelete (eventId : String)
  | notionQueryDb (dbId : String)
  | notionGetPage (pageId : String)
  | notionCreatePage (dbId : String) (name content : String) (dateIso : DT)
      (messageId creatorId : String) (eventUrl : Option String)
      (googleEventId : Option String) (location : Option String)
  | notionUpdatePage (pageId : String) (name content : Option String)
      (dateIso : Option DT) (messageId pageUuid eventUrl googleEventId
      location : Option String)
  | notionArchivePage (pageId : String)
deriving DecidableEq, Repr

/-- Response oracles for the bot's collaborators. -/
structure BotWorld where
  googleInsertResp : Unit → Option (Option String) := fun _ => none
  googlePatchOk : String → Bool := fun _ => true
  googleDeleteOk : String → Bool := fun _ => true
  notionCreateResp : String → Option String := fun _ => none
  notionUpdateOk : String → Bool := fun _ => true
  notionArchiveOk : String → Bool := fun _ => true
  dbPages : String → List BotPage := fun _ => []
  getPage : String → Option BotPage := fun _ => none

/-- `is_bot_created_scheduled_event`: the event's `creator_id`, or failing
that its `creator.id`, equals the bot's own user id (`False` while the bot
has no user). -/
def isBotCreatedScheduledEvent (botUser : Option Int) (e : DiscordEvent) : Bool :=
  match botUser with
  | none => false
  | some u =>
    (match e.creatorId with
      | some c => decide (c = u)
      | none => false)
    || (match e.creatorObjId with
        | some c => decide (c = u)
        | none => false)

/-- `is_ignored_event`: the name contains the exclusion word. -/
def isIgnoredEvent (name : String) : Bool :=
  GcalSync.hasSubSeq "定例会".toList name.toList

/-- `get_event_url`: the event's own url, else one built from the guild id,
else `None`. -/
def getEventUrl (e : DiscordEvent) : Option String :=
  match e.url with
  | some u => if u ≠ "" then some u else fallbackUrl e
  | none => fallbackUrl e
where
  fallbackUrl (e : DiscordEvent) : Option String :=
    match e.guildId with
    | some g =>
      some ("https://discord.com/events/" ++ toString g ++ "/" ++ toString e.id)
    | none => none

/-- `get_event_location`: `event.location`, else
`event.entity_metadata.location`, both stripped; `None` when empty. -/
def getEventLocation (e : DiscordEvent) : Option String :=
  match stripOpt e.location with
  | some t => some t
  | none => stripOpt e.metaLocation
where
  stripOpt : Option String → Option String
    | some s =>
      if s ≠ "" then
        let t := (GcalSync.strip s.toList).asString
        if t ≠ "" then some t else none
      else none
    | none => none

/-- `get_google_event_id_from_notion_page`: the extracted, stripped
Google-event-id column (`None` on a missing page or an empty value). -/
def getGoogleEventIdFromNotionPage : Option BotPage → Option String
  | none => none
  | some p =>
    match p.googleEventId with
    | some g => if g ≠ "" then some g else none
    | none => none

/-- `to_jst_iso`: serialization keeps the instant. -/
def toJstIso (d : DT) : DT := ⟨d.utcMinutes, 540⟩

/-- `google_add_event`: insert into the calendar when the Google service is
configured; returns the new event's id (the caller reads
`google_event.get("id")`). -/
def googleAddEvent (cfg : BotConfig) (w : BotWorld) (name description : String)
    (startDt endDt : DT) (location : Option String) :
    Option String × List BotCall :=
  if ¬ cfg.googleServiceOk then (none, [])
  else
    let resp := w.googleInsertResp ()
    (match resp with
      | some idField => GcalSync.truthyOpt idField
      | none => none,
      [.googleInsert name description startDt endDt location])

/-- `google_update_event`: patch an existing calendar event (skipped when
the service or the id is unavailable). -/
def googleUpdateEvent (cfg : BotConfig) (w : BotWorld) (gid : String)
    (name description : String) (startDt endDt : DT) (location : Option String) :
    Bool × List BotCall :=
  if ¬ cfg.googleServiceOk ∨ gid = "" then (false, [])
  else (w.googlePatchOk gid, [.googlePatch gid name description startDt endDt location])

/-- `google_delete_event`. -/
def googleDeleteEvent (cfg : BotConfig) (w : BotWorld) (gid : String) :
    Bool × List BotCall :=
  if ¬ cfg.googleServiceOk ∨ gid = "" then (false, [])
  else (w.googleDeleteOk gid, [.googleDelete gid])

/-- `notion_add_event`: create the page (nothing on a falsy database id);
on success the fresh page's own id is PATCHed into its `ページID`
property. -/
def notionAddEvent (w : BotWorld) (dbId : Option String) (name content : String)
    (dateIso : DT) (messageId creatorId : String) (eventUrl : Option String)
    (googleEventId : Option String) (location : Option String) :
    Option String × List BotCall :=
  match dbId with
  | some db =>
    if db = "" then (none, [])
    else
      let c : BotCall :=
        .notionCreatePage db name content dateIso messageId creatorId eventUrl
          googleEventId location
      match w.notionCreateResp db with
      | some pid =>
        (some pid,
          [c, .notionUpdatePage pid none none none none (some pid) none none none])
      | none => (none, [c])
  | none => (none, [])

/-- `notion_update_event` (bot side). -/
def notionUpdateEventBot (w : BotWorld) (pid : String) (name content : Option String)
    (dateIso : Option DT) (messageId pageUuid eventUrl googleEventId
    location : Option String) : Bool × List BotCall :=
  (w.notionUpdateOk pid,
    [.notionUpdatePage pid name content dateIso messageId pageUuid eventUrl
      googleEventId location])

/-- `notion_delete_event` (archive). -/
def notionDeleteEvent (w : BotWorld) (pid : String) : Bool × List BotCall :=
  (w.notionArchiveOk pid, [.notionArchivePage pid])

/-- `find_event_page`: fetch every page of the database and return the
first whose `メッセージID` equals the Discord event id. -/
def findEventPage (w : BotWorld) (dbId : Option String) (eid : String) :
    Option BotPage × List BotCall :=
  match dbId with
  | some db =>
    if db = "" then (none, [])
    else
      ((w.dbPages db).find? (fun p => p.messageId = some eid), [.notionQueryDb db])
  | none => (none, [])

/-- `notion_get_event`. -/
def notionGetEvent (w : BotWorld) (pid : String) : Option BotPage × List BotCall :=
  (w.getPage pid, [.notionGetPage pid])

/-- `on_scheduled_event_create`: skip entirely for a bot-created event;
otherwise insert into Google Calendar, then create the external Notion
page (unless the name is excluded), then the internal one. -/
def onScheduledEventCreate (cfg : BotConfig) (w : BotWorld) (e : DiscordEvent) :
    List BotCall :=
  if isBotCreatedScheduledEvent cfg.botUser e then []
  else
    let description := GcalSync.pyOrStr e.description "(内容なし)"
    let startIso := toJstIso e.startTime
    let eventUrl := getEventUrl e
    let eventLocation := getEventLocation e
    let creatorId :=
      match e.creatorId with
      | some c => toString c
      | none =>
        match e.creatorObjId with
        | some c => toString c
        | none => "unknown"
    let endTime :=
      match e.endTime with
      | some t => t
      | none => e.startTime.addMinutes 60
    let (googleEventId, gcalls) :=
      googleAddEvent cfg w e.name description e.startTime endTime eventLocation
    let extCalls :=
      if ¬ isIgnoredEvent e.name then
        (notionAddEvent w cfg.notionExternalDbId e.name description startIso
          (toString e.id) creatorId none googleEventId none).2
      else []
    let intCalls :=
      (notionAddEvent w cfg.notionInternalDbId e.name description startIso
        (toString e.id) creatorId eventUrl googleEventId eventLocation).2
    gcalls ++ extCalls ++ intCalls

/-- `on_scheduled_event_update`: skip entirely for a bot-created event;
otherwise look up the external (unless excluded) and internal pages by the
event id, update Google Calendar via the stored Google event id, then
update both pages. -/
def onScheduledEventUpdate (cfg : BotConfig) (w : BotWorld)
    (before after : DiscordEvent) : List BotCall :=
  if isBotCreatedScheduledEvent cfg.botUser after then []
  else
    let afterId := toString after.id
    let eventUrl := getEventUrl after
    let (target, tcalls) :=
      if ¬ isIgnoredEvent after.name then findEventPage w cfg.notionExternalDbId afterId
      else (none, [])
    let (internalTarget, icalls) := findEventPage w cfg.notionInternalDbId afterId
    let newName := after.name
    let newContent := GcalSync.pyOrStr after.description "(内容なし)"
    let newDateIso := toJstIso after.startTime
    let newLocation := getEventLocation after
    let newEndTime :=
      match after.endTime with
      | some t => t
      | none => after.startTime.addMinutes 60
    let (googleEventId, gidCalls) :=
      match internalTarget with
      | some t =>
        let (pg, c) := notionGetEvent w t.id
        (getGoogleEventIdFromNotionPage pg, c)
      | none => (none, [])
    let gupCalls :=
      match googleEventId with
      | some gid =>
        (googleUpdateEvent cfg w gid newName newContent after.startTime newEndTime
          newLocation).2
      | none => []
    let extUpCalls :=
      match target with
      | some t =>
        (notionUpdateEventBot w t.id (some newName) (some newContent)
          (some newDateIso) none none none none none).2
      | none => []
    let intUpCalls :=
      match internalTarget with
      | some t =>
        (notionUpdateEventBot w t.id (some newName) (some newContent)
          (some newDateIso) none none eventUrl none newLocation).2
      | none => []
    tcalls ++ icalls ++ gidCalls ++ gupCalls ++ extUpCalls ++ intUpCalls

/-- `on_scheduled_event_delete`: skip entirely for a bot-created event;
otherwise archive the external page (unless excluded), then delete the
Google event referenced by the internal page and archive it. -/
def onScheduledEventDelete (cfg : BotConfig) (w : BotWorld) (e : DiscordEvent) :
    List BotCall :=
  if isBotCreatedScheduledEvent cfg.botUser e then []
  else
    let eid := toString e.id
    let extCalls :=
      if ¬ isIgnoredEvent e.name then
        let (target, tcalls) := findEventPage w cfg.notionExternalDbId eid
        match target with
        | some t => tcalls ++ (notionDeleteEvent w t.id).2
        | none => tcalls
      else []
    let (internalTarget, icalls) := findEventPage w cfg.notionInternalDbId eid
    let intCalls :=
      match internalTarget with
      | some t =>
        let (pg, gc) := notionGetEvent w t.id
        let gdel :=
          match getGoogleEventIdFromNotionPage pg with
          | some gid => (googleDeleteEvent cfg w gid).2
          | none => []
        gc ++ gdel ++ (notionDeleteEvent w t.id).2
      | none => []
    extCalls ++ icalls ++ intCalls

end DiscordBot

namespace GcalSync

/-- C1 counterexample: an active event with no mirror anywhere whose end
time (UTC minute 60) lies before now (minute 10000) still produces two
create calls in one reconciliation pass — one against the external
document database and one against the chat platform — so the pass does
not issue zero create calls against every downstream store. -/
theorem c1_counterexample_external_and_discord_creates :
    (upsertEvent cxCfg c1World {} c1Event).2.countP Call.isCreate = 2 ∧
    (upsertEvent cxCfg c1World {} c1Event).2.countP
      (Call.isNotionCreateIn cxCfg.notionInternalDbId) = 0 ∧
    (upsertEvent cxCfg c1World {} c1Event).2.countP Call.isDiscordCreate = 1 := by
  exact ⟨rfl, rfl, rfl⟩

/-- C6 counterexample: with every required collaborator configured and the
calendar listing call failing outright, the pass reconciles nothing, yet
`sync_calendar` reports success and the manual HTTP trigger returns 200
rather than a non-success status. -/
theorem c6_counterexample_success_on_listing_failure :
    c6World.googleList (.delta ⟨4998, 0⟩) = .errOther ∧
    (syncCalendar cxCfg c6World c6St).1 = true ∧
    (syncCalendar cxCfg c6World c6St).2.2 = [Call.googleList (.delta ⟨4998, 0⟩)] ∧
    (manualSync cxCfg c6World c6St c6Co 0).1 = 200 := by
  exact ⟨rfl, rfl, rfl, rfl⟩

/-- C7 counterexample: on first run (no saved cursor) the poller issues a
bounded 30-day-lookback incremental listing (now 50000 − 43200 = 6800),
not the unbounded full listing. -/
theorem c7_counterexample_first_run_delta :
    (listUpdatedEvents cxCfg c7World none).2 =
      [Call.googleList (.delta ⟨6800, 0⟩)] ∧
    (listUpdatedEvents cxCfg c7World none).2.countP Call.isGoogleFull = 0 := by
  exact ⟨rfl, rfl⟩

set_option maxRecDepth 40000

/-- C8 counterexample: a document-store create passes a 2001-character
content field through unclipped (beyond the store's 2000-character
rich-text bound), while the chat-platform payload built from the same
text is clipped to the 1000-character limit. -/
theorem c8_counterexample_notion_unclipped :
    (notionCreateEvent cxCfg {} "t".toList (List.replicate 2001 'a')
        ⟨.fromDateTime ⟨0, 0⟩, none⟩ "c" none none none
        (some "external-db") none).2 = [Call.notionCreate c8Payload] ∧
    c8Payload.content.length = 2001 ∧
    (buildDiscordPayload cxCfg c8Event).map (fun p => p.description.length) =
      some 1000 := by
  refine ⟨rfl, ?_, ?_⟩
  · simp [c8Payload]
  · rfl

/-- C9 counterexample: for the spec's scenario event (start
2024-03-01T10:00+09:00, no end), the end is synthesized to start + 1 h
for the chat-platform payload, but the document-store date property
carries no end at all — the synthesized end is not used there. -/
theorem c9_counterexample_notion_date_no_end :
    parseGoogleEventTimes c9Event = some (⟨86460, 540⟩, ⟨86520, 540⟩) ∧
    buildNotionDate c9Event = some ⟨.fromDateTime ⟨86460, 540⟩, none⟩ ∧
    (buildDiscordPayload cxCfg c9Event).map DiscordPayload.scheduledEnd =
      some ⟨86520, 0⟩ := by
  exact ⟨rfl, rfl, rfl⟩

/-- C9 (amended): an event whose end time is missing, or not after its
start, gets a synthesized end of start + 1 hour, and that synthesized end
is used in the chat-platform payload; the document-store date property
instead carries the source's raw start/end (no end key when the end is
missing, the raw not-after end when one is present). -/
theorem c9_synthesized_end_discord_only :
    (∀ (e : GEvent) (s : DT),
      e.start.dateTime = some s →
      e.endPart.dateTime = none → e.endPart.date = none →
      parseGoogleEventTimes e = some (s, s.addMinutes 60) ∧
      buildNotionDate e = some ⟨.fromDateTime s, none⟩ ∧
      ∀ (cfg : Config) (p : DiscordPayload),
        buildDiscordPayload cfg e = some p →
        p.scheduledEnd = toDiscordIso (s.addMinutes 60)) ∧
    (∀ (e : GEvent) (s en : DT),
      e.start.dateTime = some s →
      e.endPart.dateTime = some en →
      en.utcMinutes ≤ s.utcMinutes →
      parseGoogleEventTimes e = some (s, s.addMinutes 60) ∧
      buildNotionDate e = some ⟨.fromDateTime s, some (.fromDateTime en)⟩ ∧
      ∀ (cfg : Config) (p : DiscordPayload),
        buildDiscordPayload cfg e = some p →
        p.scheduledEnd = toDiscordIso (s.addMinutes 60)) := by
  constructor
  · intro e s hs h1 h2
    have hparse : parseGoogleEventTimes e = some (s, s.addMinutes 60) := by
      simp [parseGoogleEventTimes, parsePart, hs, h1, h2]
    refine ⟨hparse, ?_, ?_⟩
    · simp [buildNotionDate, rawOfPart, hs, h1, h2]
    · intro cfg p hp
      unfold buildDiscordPayload at hp
      rw [hparse] at hp
      by_cases hid : e.id = "" <;> simp [hid] at hp
      rw [← hp]
  · intro e s en hs hen hle
    have hparse : parseGoogleEventTimes e = some (s, s.addMinutes 60) := by
      simp [parseGoogleEventTimes, parsePart, hs, hen, hle]
    refine ⟨hparse, ?_, ?_⟩
    · simp [buildNotionDate, rawOfPart, hs, hen]
    · intro cfg p hp
      unfold buildDiscordPayload at hp
      rw [hparse] at hp
      by_cases hid : e.id = "" <;> simp [hid] at hp
      rw [← hp]

/-- C9 witness: the amended theorem applied to the scenario event. -/
theorem c9_witness :
    parseGoogleEventTimes c9Event = some (⟨86460, 540⟩, DT.addMinutes ⟨86460, 540⟩ 60) ∧
    buildNotionDate c9Event = some ⟨.fromDateTime ⟨86460, 540⟩, none⟩ := by
  have h := c9_synthesized_end_discord_only.1 c9Event ⟨86460, 540⟩ rfl rfl rfl
  exact ⟨h.1, h.2.1⟩

/-- The marker scan issues at most the guild listing request. -/
theorem findMarker_calls (cfg : Config) (w : World) (gid : String) :
    ∀ c ∈ (findDiscordEventIdByGoogleMarker cfg w gid).2,
      c = Call.discordListEvents := by
  unfold findDiscordEventIdByGoogleMarker
  split
  · simp
  · split
    · simp
    · split <;> simp

/-- Persisting a Discord id never touches the Notion correlation maps. -/
theorem setDiscord_preserves_notion (st : St) (g d : String) :
    (setDiscordEventIdByGoogleId st g d).notionInternalMap = st.notionInternalMap ∧
    (setDiscordEventIdByGoogleId st g d).notionExternalMap = st.notionExternalMap := by
  unfold setDiscordEventIdByGoogleId
  split <;> simp

/-- Removing a Discord id never touches the Notion correlation maps. -/
theorem removeDiscord_preserves_notion (st : St) (g : String) :
    (removeDiscordEventIdByGoogleId st g).notionInternalMap = st.notionInternalMap ∧
    (removeDiscordEventIdByGoogleId st g).notionExternalMap = st.notionExternalMap := by
  unfold removeDiscordEventIdByGoogleId
  split <;> simp

/-- After removal the Discord correlation entry is gone. -/
theorem removeDiscord_at (st : St) (g : String) (hg : g ≠ "") :
    (removeDiscordEventIdByGoogleId st g).gcalDiscordMap g = none := by
  simp [removeDiscordEventIdByGoogleId, hg, mapRemove]

/-- Resolution issues at most the guild listing request. -/
theorem syncToDiscordResolve_calls (cfg : Config) (w : World) (st : St)
    (gid : String) (pg fb : Option Page) :
    ∀ c ∈ (syncToDiscordResolve cfg w st gid pg fb).2.2,
      c = Call.discordListEvents := by
  intro c hc
  have hmc : ∀ x ∈ (findDiscordEventIdByGoogleMarker cfg w gid).2,
      x = Call.discordListEvents := findMarker_calls cfg w gid
  simp only [syncToDiscordResolve] at hc
  repeat' split at hc
  all_goals first | exact hmc c hc | simp_all

/-- Resolution never touches the Notion correlation maps. -/
theorem syncToDiscordResolve_preserves (cfg : Config) (w : World) (st : St)
    (gid : String) (pg fb : Option Page) :
    (syncToDiscordResolve cfg w st gid pg fb).2.1.notionInternalMap =
      st.notionInternalMap ∧
    (syncToDiscordResolve cfg w st gid pg fb).2.1.notionExternalMap =
      st.notionExternalMap := by
  constructor <;>
  · simp only [syncToDiscordResolve]
    repeat' split
    all_goals simp [setDiscord_preserves_notion]

/-- The create/update step only issues Discord requests, and every payload
it sends is the one built by `build_discord_payload` for the event. -/
theorem syncToDiscordAct_calls (cfg : Config) (w : World) (st1 : St)
    (event : GEvent) (gid : String) (dopt : Option String) :
    (∀ c ∈ (syncToDiscordAct cfg w st1 event gid dopt).2.2,
      c.isDiscordSide = true) ∧
    (∀ q, Call.discordCreate q ∈ (syncToDiscordAct cfg w st1 event gid dopt).2.2 →
      buildDiscordPayload cfg event = some q) ∧
    (∀ d q, Call.discordUpdate d q ∈ (syncToDiscordAct cfg w st1 event gid dopt).2.2 →
      buildDiscordPayload cfg event = some q) ∧
    ((syncToDiscordAct cfg w st1 event gid dopt).1.notionInternalMap =
      st1.notionInternalMap) ∧
    ((syncToDiscordAct cfg w st1 event gid dopt).1.notionExternalMap =
      st1.notionExternalMap) := by
  refine ⟨?_, ?_, ?_, ?_, ?_⟩
  · intro c hc
    rcases dopt with _ | did <;>
      simp only [syncToDiscordAct] at hc <;>
      (repeat' split at hc) <;>
      simp_all [Call.isDiscordSide]
  · intro q hq
    rcases dopt with _ | did <;>
      simp only [syncToDiscordAct] at hq <;>
      (repeat' split at hq) <;>
      simp_all
  · intro d q hq
    rcases dopt with _ | did <;>
      simp only [syncToDiscordAct] at hq <;>
      (repeat' split at hq) <;>
      simp_all
  · rcases dopt with _ | did <;>
      simp only [syncToDiscordAct] <;>
      (repeat' split) <;>
      simp_all [setDiscord_preserves_notion]
  · rcases dopt with _ | did <;>
      simp only [syncToDiscordAct] <;>
      (repeat' split) <;>
      simp_all [setDiscord_preserves_notion]

/-- `sync_to_discord` issues only Discord-side requests: it never writes
to the document store. -/
theorem syncToDiscord_calls (cfg : Config) (w : World) (st : St) (ev : GEvent)
    (pg fb : Option Page) :
    ∀ c ∈ (syncToDiscord cfg w st ev pg fb).2.2, c.isDiscordSide = true := by
  intro c hc
  have hres := syncToDiscordResolve_calls cfg w st ev.id pg fb
  have hact := syncToDiscordAct_calls cfg w
    (syncToDiscordResolve cfg w st ev.id pg fb).2.1 ev ev.id
    (syncToDiscordResolve cfg w st ev.id pg fb).1
  simp only [syncToDiscord] at hc
  repeat' split at hc
  all_goals try (exact absurd hc (List.not_mem_nil c))
  all_goals simp only [List.append_nil] at hc
  all_goals
    first
    | (rw [hres c hc]; rfl)
    | (rcases List.mem_append.mp hc with h | h
       · rw [hres c h]; rfl
       · first
         | exact hact.1 c h
         | (simp only [List.mem_singleton] at h; subst h; rfl))

/-- `sync_to_discord` never changes the Notion correlation maps. -/
theorem syncToDiscord_preserves (cfg : Config) (w : World) (st : St)
    (ev : GEvent) (pg fb : Option Page) :
    (syncToDiscord cfg w st ev pg fb).1.notionInternalMap = st.notionInternalMap ∧
    (syncToDiscord cfg w st ev pg fb).1.notionExternalMap = st.notionExternalMap := by
  have hres := syncToDiscordResolve_preserves cfg w st ev.id pg fb
  have hact := syncToDiscordAct_calls cfg w
    (syncToDiscordResolve cfg w st ev.id pg fb).2.1 ev ev.id
    (syncToDiscordResolve cfg w st ev.id pg fb).1
  obtain ⟨hact1, hact2⟩ := hact.2.2.2
  constructor <;>
  · simp only [syncToDiscord]
    repeat' split
    all_goals
      simp_all [removeDiscord_preserves_notion]

/-- On a cancelled event `sync_to_discord` issues only the optional
listing request and the optional delete. -/
theorem syncToDiscord_cancelled_calls (cfg : Config) (w : World) (st : St)
    (ev : GEvent) (pg fb : Option Page) (hst : ev.status = some "cancelled") :
    ∀ c ∈ (syncToDiscord cfg w st ev pg fb).2.2,
      c = Call.discordListEvents ∨ ∃ d, c = Call.discordDelete d := by
  intro c hc
  have hres := syncToDiscordResolve_calls cfg w st ev.id pg fb
  simp only [syncToDiscord] at hc
  repeat' split at hc
  all_goals try (exact absurd hc (List.not_mem_nil c))
  all_goals simp only [List.append_nil] at hc
  all_goals
    first
    | exact Or.inl (hres c hc)
    | (rcases List.mem_append.mp hc with h | h
       · exact Or.inl (hres c h)
       · simp only [List.mem_singleton] at h
         subst h
         exact Or.inr ⟨_, rfl⟩)

/-- On a cancelled event `sync_to_discord` performs zero create, update
and archive calls. -/
theorem syncToDiscord_cancelled_counts (cfg : Config) (w : World) (st : St)
    (ev : GEvent) (pg fb : Option Page) (hst : ev.status = some "cancelled") :
    (syncToDiscord cfg w st ev pg fb).2.2.countP Call.isCreate = 0 ∧
    (syncToDiscord cfg w st ev pg fb).2.2.countP Call.isUpdateCall = 0 ∧
    ∀ pid, (syncToDiscord cfg w st ev pg fb).2.2.countP (Call.isArchiveOf pid) = 0 := by
  have h := syncToDiscord_cancelled_calls cfg w st ev pg fb hst
  refine ⟨?_, ?_, fun pid => ?_⟩ <;>
  · rw [List.countP_eq_zero]
    intro c hc
    rcases h c hc with rfl | ⟨d, rfl⟩ <;>
      simp [Call.isCreate, Call.isUpdateCall, Call.isArchiveOf]

/-- After a cancelled event's pass the Discord correlation entry is gone
(when Discord sync is available and the event id is truthy). -/
theorem syncToDiscord_cancelled_map (cfg : Config) (w : World) (st : St)
    (ev : GEvent) (pg fb : Option Page)
    (hav : discordSyncAvailable cfg = true) (hid : ev.id ≠ "")
    (hst : ev.status = some "cancelled") :
    (syncToDiscord cfg w st ev pg fb).1.gcalDiscordMap ev.id = none := by
  simp only [syncToDiscord, hav, hid, hst]
  simp [removeDiscord_at _ _ hid]

/-- `pyOrOpt` falls through on a falsy first operand. -/
theorem pyOrOpt_of_false (a b : Option String) (h : pyTruthy a = false) :
    pyOrOpt a b = b := by
  cases a <;> simp_all [pyTruthy, pyOrOpt]

/-- Removing a Notion correlation entry for one scope leaves the other
maps untouched. -/
theorem removeNotion_maps (st : St) (g : String) :
    ((removeNotionPageIdByGoogleId st g .internal).notionExternalMap =
      st.notionExternalMap) ∧
    ((removeNotionPageIdByGoogleId st g .internal).gcalDiscordMap =
      st.gcalDiscordMap) ∧
    ((removeNotionPageIdByGoogleId st g .external).notionInternalMap =
      st.notionInternalMap) ∧
    ((removeNotionPageIdByGoogleId st g .external).gcalDiscordMap =
      st.gcalDiscordMap) := by
  unfold removeNotionPageIdByGoogleId
  split <;> simp

/-- After removal the internal correlation entry is gone. -/
theorem removeNotion_at_internal (st : St) (g : String) (hg : g ≠ "") :
    (removeNotionPageIdByGoogleId st g .internal).notionInternalMap g = none := by
  simp [removeNotionPageIdByGoogleId, hg, mapRemove]

/-- After removal the external correlation entry is gone. -/
theorem removeNotion_at_external (st : St) (g : String) (hg : g ≠ "") :
    (removeNotionPageIdByGoogleId st g .external).notionExternalMap g = none := by
  simp [removeNotionPageIdByGoogleId, hg, mapRemove]

/-- Resolution of the internal mirror through a live mapping: exactly one
page fetch, no state change. -/
theorem resolveInternalPage_mapped (cfg : Config) (w : World) (st : St)
    (gid pid : String) (pg : Page)
    (hgid : gid ≠ "") (hmap : st.notionInternalMap gid = some pid)
    (hpid : pid ≠ "") (hw : w.notionGetPage pid = some pg) :
    resolveInternalPage cfg w st gid = (some pg, st, [Call.notionGetPage pid]) := by
  simp [resolveInternalPage, getNotionPageIdByGoogleId, hgid, hmap,
    notionGetPageCall, hpid, hw]

/-- Resolution of the external mirror through a live mapping: exactly one
page fetch, no state change. -/
theorem resolveExternalPage_mapped (cfg : Config) (w : World) (st : St)
    (gid epid : String) (epg : Page)
    (hext : pyTruthy cfg.notionExternalDbId = true)
    (hgid : gid ≠ "") (hmap : st.notionExternalMap gid = some epid)
    (hpid : epid ≠ "") (hw : w.notionGetPage epid = some epg) :
    resolveExternalPage cfg w st gid = (some epg, st, [Call.notionGetPage epid]) := by
  simp [resolveExternalPage, hext, getNotionPageIdByGoogleId, hgid, hmap,
    notionGetPageCall, hpid, hw]

/-- Core of the cancellation-propagation claim: a cancelled event whose two
document-store mirrors resolve through the correlation maps gets exactly
one archive call per mirror, zero create and update calls, and all three
correlation entries removed. -/
theorem upsertEvent_cancelled_two_mirrors
    (cfg : Config) (w : World) (st : St) (event : GEvent)
    (ipid epid : String) (ipg epg : Page)
    (hgid : event.id ≠ "")
    (hst : event.status = some "cancelled")
    (hmap1 : st.notionInternalMap event.id = some ipid)
    (hip : ipid ≠ "")
    (hw1 : w.notionGetPage ipid = some ipg)
    (hipg : ipg.id = ipid)
    (hext : pyTruthy cfg.notionExternalDbId = true)
    (hmap2 : st.notionExternalMap event.id = some epid)
    (hep : epid ≠ "")
    (hw2 : w.notionGetPage epid = some epg)
    (hepg : epg.id = epid)
    (hne : ipid ≠ epid)
    (hav : discordSyncAvailable cfg = true) :
    ((upsertEvent cfg w st event).2.countP (Call.isArchiveOf ipid) = 1) ∧
    ((upsertEvent cfg w st event).2.countP (Call.isArchiveOf epid) = 1) ∧
    ((upsertEvent cfg w st event).2.countP Call.isCreate = 0) ∧
    ((upsertEvent cfg w st event).2.countP Call.isUpdateCall = 0) ∧
    ((upsertEvent cfg w st event).1.notionInternalMap event.id = none) ∧
    ((upsertEvent cfg w st event).1.notionExternalMap event.id = none) ∧
    ((upsertEvent cfg w st event).1.gcalDiscordMap event.id = none) := by
  have hri := resolveInternalPage_mapped cfg w st event.id ipid ipg hgid hmap1 hip hw1
  have hre := resolveExternalPage_mapped cfg w st event.id epid epg hext hgid
    hmap2 hep hw2
  have hup : upsertEvent cfg w st event =
      ((syncToDiscord cfg w
          (removeNotionPageIdByGoogleId
            (removeNotionPageIdByGoogleId st event.id .internal) event.id .external)
          event (some ipg) (some epg)).1,
        [Call.notionGetPage ipid] ++ [Call.notionGetPage epid] ++
          [Call.notionArchive ipid] ++ [Call.notionArchive epid] ++
          (syncToDiscord cfg w
            (removeNotionPageIdByGoogleId
              (removeNotionPageIdByGoogleId st event.id .internal) event.id .external)
            event (some ipg) (some epg)).2.2) := by
    simp [upsertEvent, hgid, hst, hri, hre, notionArchivePageCall, hipg, hepg]
  have hdc := syncToDiscord_cancelled_counts cfg w
    (removeNotionPageIdByGoogleId
      (removeNotionPageIdByGoogleId st event.id .internal) event.id .external)
    event (some ipg) (some epg) hst
  have hdp := syncToDiscord_preserves cfg w
    (removeNotionPageIdByGoogleId
      (removeNotionPageIdByGoogleId st event.id .internal) event.id .external)
    event (some ipg) (some epg)
  have hdm := syncToDiscord_cancelled_map cfg w
    (removeNotionPageIdByGoogleId
      (removeNotionPageIdByGoogleId st event.id .internal) event.id .external)
    event (some ipg) (some epg) hav hgid hst
  have hne' : epid ≠ ipid := fun h => hne h.symm
  rw [hup]
  refine ⟨?_, ?_, ?_, ?_, ?_, ?_, ?_⟩
  · simp [List.countP_append, Call.isArchiveOf, hne', hdc.2.2 ipid]
  · simp [List.countP_append, Call.isArchiveOf, hne, hdc.2.2 epid]
  · simp [List.countP_append, Call.isCreate, hdc.1]
  · simp [List.countP_append, Call.isUpdateCall, hdc.2.1]
  · rw [hdp.1, (removeNotion_maps _ _).2.2.1]
    exact removeNotion_at_internal st event.id hgid
  · rw [hdp.2]
    exact removeNotion_at_external _ event.id hgid
  · exact hdm

/-- When the Notion page hint carries a truthy `メッセージID`, resolution
returns it directly: no marker scan, no state change, no requests. -/
theorem syncToDiscordResolve_hint (cfg : Config) (w : World) (st : St)
    (gid : String) (pg : Page) (fb : Option Page) (did : String)
    (hmid : pg.messageId = some did) (hdid : did ≠ "") :
    syncToDiscordResolve cfg w st gid (some pg) fb = (some did, st, []) := by
  simp [syncToDiscordResolve, notionExtractMessageId, hmid, hdid, pyTruthy, pyOrOpt]

/-- C10: when an existing chat-platform mirror id is resolved from the
Notion page and the update call against it fails, `sync_to_discord`
returns without attempting a create: the trace is exactly the one failed
update, no id is returned, and the state is unchanged. -/
theorem c10_update_failure_no_create
    (cfg : Config) (w : World) (st : St) (event : GEvent) (pg : Page)
    (did : String) (p : DiscordPayload)
    (hda : discordSyncAvailable cfg = true)
    (hid : event.id ≠ "")
    (hstat : event.status ≠ some "cancelled")
    (hmid : pg.messageId = some did)
    (hdid : did ≠ "")
    (hpay : buildDiscordPayload cfg event = some p)
    (hfail : w.discordUpdateResp did p = none) :
    syncToDiscord cfg w st event (some pg) none =
      (st, none, [Call.discordUpdate did p]) := by
  simp [syncToDiscord, hda, hid, hstat,
    syncToDiscordResolve_hint cfg w st event.id pg none did hmid hdid,
    syncToDiscordAct, hdid, hpay, hfail]

/-- C10 witness: the theorem applied to a concrete failed update. -/
theorem c10_witness :
    syncToDiscord cxCfg c10World {} c10Event (some c10Page) none =
      (({} : St), none, [Call.discordUpdate "d77" c10Payload]) := by
  exact c10_update_failure_no_create cxCfg c10World {} c10Event c10Page "d77"
    c10Payload rfl (by decide) (by decide) rfl (by decide) rfl rfl

/-- Registering one more token after a prefix is registering it on the
folded state. -/
theorem registerAll_append (st : DedupSt) (l : List String) (t : String) :
    registerAll st (l ++ [t]) = (registerMessageId (registerAll st l) t).2 := by
  simp [registerAll, List.foldl_append]

/-- Filling an empty guard of capacity `C` with at most `C` distinct
nonempty tokens keeps them all, in order, with the mirror set in sync. -/
theorem registerAll_build (C : Nat) (ts : List String)
    (hnd : ts.Nodup) (hne : ∀ x ∈ ts, x ≠ "") (hlen : ts.length ≤ C) :
    (registerAll ⟨C, [], ∅⟩ ts).maxlen = C ∧
    (registerAll ⟨C, [], ∅⟩ ts).ids = ts ∧
    (registerAll ⟨C, [], ∅⟩ ts).idSet = ts.toFinset := by
  induction ts using List.reverseRecOn with
  | nil => simp [registerAll]
  | append_singleton l t ih =>
    have hl_nd : l.Nodup := (List.nodup_append.mp hnd).1
    have ht_l : t ∉ l := by
      intro hmem
      exact ((List.nodup_append.mp hnd).2.2 hmem) (by simp)
    have hl_ne : ∀ x ∈ l, x ≠ "" := fun x hx => hne x (by simp [hx])
    have ht_ne : t ≠ "" := hne t (by simp)
    have hl_len : l.length ≤ C := by
      have := hlen
      simp at this
      omega
    have hl_lt : l.length < C := by
      have := hlen
      simp at this
      omega
    obtain ⟨hm, hids, hset⟩ := ih hl_nd hl_ne hl_len
    rw [registerAll_append]
    have hlen_ne : l.length ≠ C := Nat.ne_of_lt hl_lt
    refine ⟨?_, ?_, ?_⟩
    · simp [registerMessageId, ht_ne, ht_l, hm, hids, hset, List.mem_toFinset, hlen_ne]
    · simp [registerMessageId, ht_ne, ht_l, hm, hids, hset, List.mem_toFinset, hlen_ne]
    · simp [registerMessageId, ht_ne, ht_l, hm, hids, hset, List.mem_toFinset, hlen_ne]
      ext x
      simp [List.mem_toFinset]
      tauto

/-- The coordinator invariant holds initially. -/
theorem coordInv_init (n : Nat) : coordInv (coordInit n) := by
  constructor
  · intro i j hi _
    simp [coordInit] at hi
  · intro _ i
    simp [coordInit]

/-- The coordinator invariant is preserved by every step. -/
theorem update_run_elsewhere {n : Nat} (f : Fin n → TPhase) (i a : Fin n)
    (v : TPhase) (hv : v ≠ TPhase.running)
    (h : Function.update f i v a = TPhase.running) :
    f a = TPhase.running ∧ a ≠ i := by
  by_cases hai : a = i
  · rw [hai, Function.update_same] at h
    exact absurd h hv
  · rw [Function.update_noteq hai] at h
    exact ⟨h, hai⟩

theorem coordInv_step {n : Nat} {s s' : CoordSys n} (h : CoordStep s s')
    (hs : coordInv s) : coordInv s' := by
  obtain ⟨huniq, hfree⟩ := hs
  cases h with
  | acquireOk i hidle hlock =>
    constructor
    · intro a b ha hb
      have ha' : Function.update s.threads i TPhase.running a = TPhase.running := ha
      have hb' : Function.update s.threads i TPhase.running b = TPhase.running := hb
      by_cases hai : a = i
      · by_cases hbi : b = i
        · rw [hai, hbi]
        · rw [Function.update_noteq hbi] at hb'
          exact absurd hb' (hfree hlock b)
      · rw [Function.update_noteq hai] at ha'
        exact absurd ha' (hfree hlock a)
    · intro hl
      exact absurd hl (by simp)
  | acquireBusy i hidle hlock =>
    constructor
    · intro a b ha hb
      obtain ⟨ha', hai⟩ := update_run_elsewhere s.threads i a _ (by simp) ha
      obtain ⟨hb', hbi⟩ := update_run_elsewhere s.threads i b _ (by simp) hb
      exact huniq a b ha' hb'
    · intro hl
      exact absurd hl (by simp)
  | cooldownSkip i hidle =>
    constructor
    · intro a b ha hb
      obtain ⟨ha', hai⟩ := update_run_elsewhere s.threads i a _ (by simp) ha
      obtain ⟨hb', hbi⟩ := update_run_elsewhere s.threads i b _ (by simp) hb
      exact huniq a b ha' hb'
    · intro hl a ha
      obtain ⟨ha', hai⟩ := update_run_elsewhere s.threads i a _ (by simp) ha
      exact hfree hl a ha'
  | release i hrun =>
    constructor
    · intro a b ha hb
      obtain ⟨ha', hai⟩ := update_run_elsewhere s.threads i a _ (by simp) ha
      obtain ⟨hb', hbi⟩ := update_run_elsewhere s.threads i b _ (by simp) hb
      exact huniq a b ha' hb'
    · intro _ a ha
      obtain ⟨ha', hai⟩ := update_run_elsewhere s.threads i a _ (by simp) ha
      exact hai (huniq a i ha' hrun)

/-- Every coordinator state reachable from the initial one satisfies the
invariant. -/
theorem coordReach_inv {n : Nat} {s : CoordSys n}
    (h : CoordReach (coordInit n) s) : coordInv s := by
  induction h with
  | refl => exact coordInv_init n
  | tail _ hstep ih => exact coordInv_step hstep ih

/-- A dropped trigger stays dropped across any step: it is never queued
for later execution. -/
theorem coordStep_dropped {n : Nat} {s s' : CoordSys n} (i : Fin n)
    (h : CoordStep s s') (hd : s.threads i = .dropped) :
    s'.threads i = .dropped := by
  cases h with
  | acquireOk j hidle _ =>
    show Function.update s.threads j TPhase.running i = TPhase.dropped
    have hij : i ≠ j := by
      intro he
      rw [he, hidle] at hd
      exact absurd hd (by simp)
    rw [Function.update_noteq hij]
    exact hd
  | acquireBusy j hidle _ =>
    show Function.update s.threads j TPhase.dropped i = TPhase.dropped
    by_cases hij : i = j
    · rw [hij, Function.update_same]
    · rw [Function.update_noteq hij]
      exact hd
  | cooldownSkip j hidle =>
    show Function.update s.threads j TPhase.dropped i = TPhase.dropped
    by_cases hij : i = j
    · rw [hij, Function.update_same]
    · rw [Function.update_noteq hij]
      exact hd
  | release j hrun =>
    show Function.update s.threads j TPhase.finished i = TPhase.dropped
    have hij : i ≠ j := by
      intro he
      rw [he, hrun] at hd
      exact absurd hd (by simp)
    rw [Function.update_noteq hij]
    exact hd

/-- C4: (1) mutual exclusion — in every reachable coordinator state at
most one trigger thread is running a pass; (2) a dropped trigger is never
queued: it stays dropped under every step; (3) a trigger inside the
cooldown window since the last completed run is skipped with no sync and
no state change; (4) a trigger arriving while the lock is held is dropped
the same way; (5) both the webhook endpoint and the manual endpoint route
through the same `run_sync_guarded` gate. -/
theorem c4_run_coordinator :
    (∀ (n : Nat) (s : CoordSys n), CoordReach (coordInit n) s →
      ∀ i j : Fin n, s.threads i = .running → s.threads j = .running → i = j) ∧
    (∀ (n : Nat) (s s' : CoordSys n) (i : Fin n), CoordStep s s' →
      s.threads i = .dropped → s'.threads i = .dropped) ∧
    (∀ (cfg : Config) (w : World) (st : St) (co : CoordFnState) (now : Int),
      now - co.lastRunEpoch < max 0 cfg.cooldownSeconds →
      runSyncGuarded cfg w st co now = (true, .cooldown, st, co, [])) ∧
    (∀ (cfg : Config) (w : World) (st : St) (co : CoordFnState) (now : Int),
      ¬ (now - co.lastRunEpoch < max 0 cfg.cooldownSeconds) →
      co.lockHeld = true →
      runSyncGuarded cfg w st co now = (true, .inProgress, st, co, [])) ∧
    (∀ (cfg : Config) (w : World) (st : St) (dd : DedupSt) (co : CoordFnState)
       (now : Int),
      gcalWebhook cfg w st dd co now {} =
        ((if (runSyncGuarded cfg w st co now).2.1 ≠ SyncReason.done then 204
          else if (runSyncGuarded cfg w st co now).1 then 204 else 500),
          (runSyncGuarded cfg w st co now).2.2.1, dd,
          (runSyncGuarded cfg w st co now).2.2.2.1,
          (runSyncGuarded cfg w st co now).2.2.2.2) ∧
      manualSync cfg w st co now =
        ((if (runSyncGuarded cfg w st co now).1 then 200 else 500),
          (runSyncGuarded cfg w st co now).2.2.1,
          (runSyncGuarded cfg w st co now).2.2.2.1,
          (runSyncGuarded cfg w st co now).2.2.2.2)) := by
  refine ⟨?_, ?_, ?_, ?_, ?_⟩
  · intro n s hreach i j hi hj
    exact (coordReach_inv hreach).1 i j hi hj
  · intro n s s' i hstep hd
    exact coordStep_dropped i hstep hd
  · intro cfg w st co now h
    simp [runSyncGuarded, h]
  · intro cfg w st co now h hlock
    simp [runSyncGuarded, h, hlock]
  · intro cfg w st dd co now
    exact ⟨rfl, rfl⟩

/-- C4 witness: the theorem applied to a two-thread system (one acquire
step from the initial state; a release step with a dropped bystander) and
to concrete cooldown / in-progress triggers. -/
theorem c4_witness :
    ((0 : Fin 2) = 0) ∧
    ((⟨false, Function.update
        (CoordSys.threads ⟨true, fun k => if k = 0 then .running else .dropped⟩)
        0 .finished⟩ : CoordSys 2).threads 1 = .dropped) ∧
    runSyncGuarded cxCfg c6World c6St { lastRunEpoch := 0, lockHeld := false } 1 =
      (true, .cooldown, c6St, { lastRunEpoch := 0, lockHeld := false }, []) ∧
    runSyncGuarded cxCfg c6World c6St { lastRunEpoch := 0, lockHeld := true } 100 =
      (true, .inProgress, c6St, { lastRunEpoch := 0, lockHeld := true }, []) ∧
    manualSync cxCfg c6World c6St c6Co 0 =
      ((if (runSyncGuarded cxCfg c6World c6St c6Co 0).1 then 200 else 500),
        (runSyncGuarded cxCfg c6World c6St c6Co 0).2.2.1,
        (runSyncGuarded cxCfg c6World c6St c6Co 0).2.2.2.1,
        (runSyncGuarded cxCfg c6World c6St c6Co 0).2.2.2.2) := by
  refine ⟨?_, ?_, ?_, ?_, ?_⟩
  · exact c4_run_coordinator.1 2
      ⟨true, Function.update (coordInit 2).threads 0 .running⟩
      (Relation.ReflTransGen.single (CoordStep.acquireOk (coordInit 2) 0 rfl rfl))
      0 0 (by simp) (by simp)
  · exact c4_run_coordinator.2.1 2
      ⟨true, fun k => if k = 0 then .running else .dropped⟩ _ 1
      (CoordStep.release _ 0 (by simp)) (by simp)
  · exact c4_run_coordinator.2.2.1 cxCfg c6World c6St
      { lastRunEpoch := 0, lockHeld := false } 1 (by simp [cxCfg])
  · exact c4_run_coordinator.2.2.2.1 cxCfg c6World c6St
      { lastRunEpoch := 0, lockHeld := true } 100 (by simp [cxCfg]) rfl
  · exact (c4_run_coordinator.2.2.2.2 cxCfg c6World c6St ⟨100, [], ∅⟩ c6Co 0).2

/-- C2: (first part) a cancelled calendar event whose correlation resolves
two document-store mirrors gets, in one reconciliation pass, exactly one
archive call per resolved mirror, zero create and zero update calls, and
its correlation entries (internal page, external page, chat-platform id)
removed; (second part) a chat-platform delete attempt whose mirror id
cannot be resolved (page hints not truthy, no map entry, marker mode off)
issues no request at all — it is skipped, and in particular never turned
into a create. -/
theorem c2_cancellation_propagation :
    (∀ (cfg : Config) (w : World) (st : St) (event : GEvent)
       (ipid epid : String) (ipg epg : Page),
      event.id ≠ "" →
      event.status = some "cancelled" →
      st.notionInternalMap event.id = some ipid →
      ipid ≠ "" →
      w.notionGetPage ipid = some ipg →
      ipg.id = ipid →
      pyTruthy cfg.notionExternalDbId = true →
      st.notionExternalMap event.id = some epid →
      epid ≠ "" →
      w.notionGetPage epid = some epg →
      epg.id = epid →
      ipid ≠ epid →
      discordSyncAvailable cfg = true →
      ((upsertEvent cfg w st event).2.countP (Call.isArchiveOf ipid) = 1) ∧
      ((upsertEvent cfg w st event).2.countP (Call.isArchiveOf epid) = 1) ∧
      ((upsertEvent cfg w st event).2.countP Call.isCreate = 0) ∧
      ((upsertEvent cfg w st event).2.countP Call.isUpdateCall = 0) ∧
      ((upsertEvent cfg w st event).1.notionInternalMap event.id = none) ∧
      ((upsertEvent cfg w st event).1.notionExternalMap event.id = none) ∧
      ((upsertEvent cfg w st event).1.gcalDiscordMap event.id = none)) ∧
    (∀ (cfg : Config) (w : World) (st : St) (event : GEvent) (pg fb : Option Page),
      discordSyncAvailable cfg = true →
      event.id ≠ "" →
      event.status = some "cancelled" →
      pyTruthy (notionExtractMessageId pg) = false →
      pyTruthy (notionExtractMessageId fb) = false →
      st.gcalDiscordMap event.id = none →
      cfg.appendGcalMarker = false →
      (syncToDiscord cfg w st event pg fb).2.2 = [] ∧
      (syncToDiscord cfg w st event pg fb).2.1 = none) := by
  constructor
  · intro cfg w st event ipid epid ipg epg hgid hst hmap1 hip hw1 hipg hext
      hmap2 hep hw2 hepg hne hav
    exact upsertEvent_cancelled_two_mirrors cfg w st event ipid epid ipg epg
      hgid hst hmap1 hip hw1 hipg hext hmap2 hep hw2 hepg hne hav
  · intro cfg w st event pg fb hav hid hst h4 h5 hmap hmarker
    have hres : syncToDiscordResolve cfg w st event.id pg fb = (none, st, []) := by
      have hget : getDiscordEventIdByGoogleId st event.id = none := by
        simp [getDiscordEventIdByGoogleId, hid, hmap]
      cases fb with
      | none =>
        simp [syncToDiscordResolve, h4, pyOrOpt_of_false _ _ h4, hget,
          findDiscordEventIdByGoogleMarker, hmarker]
      | some fpg =>
        simp [syncToDiscordResolve, h4, pyOrOpt_of_false _ _ h5, hget,
          findDiscordEventIdByGoogleMarker, hmarker]
    constructor <;> simp [syncToDiscord, hav, hid, hst, hres]

/-- C2 witness: the theorem applied to a concrete cancelled event with two
resolved mirrors, and to a concrete unresolved delete. -/
theorem c2_witness :
    (((upsertEvent cxCfg c2World c2St c2Event).2.countP (Call.isArchiveOf "ip") = 1) ∧
     ((upsertEvent cxCfg c2World c2St c2Event).2.countP (Call.isArchiveOf "ep") = 1) ∧
     ((upsertEvent cxCfg c2World c2St c2Event).2.countP Call.isCreate = 0) ∧
     ((upsertEvent cxCfg c2World c2St c2Event).2.countP Call.isUpdateCall = 0) ∧
     ((upsertEvent cxCfg c2World c2St c2Event).1.notionInternalMap "g1" = none) ∧
     ((upsertEvent cxCfg c2World c2St c2Event).1.notionExternalMap "g1" = none) ∧
     ((upsertEvent cxCfg c2World c2St c2Event).1.gcalDiscordMap "g1" = none)) ∧
    ((syncToDiscord cxCfg c2World {} c2Event (some ⟨"ip", none⟩) none).2.2 = [] ∧
     (syncToDiscord cxCfg c2World {} c2Event (some ⟨"ip", none⟩) none).2.1 = none) := by
  constructor
  · exact c2_cancellation_propagation.1 cxCfg c2World c2St c2Event "ip" "ep"
      ⟨"ip", none⟩ ⟨"ep", none⟩ (by decide) rfl rfl (by decide) rfl rfl rfl rfl
      (by decide) rfl rfl (by decide) rfl
  · exact c2_cancellation_propagation.2 cxCfg c2World {} c2Event
      (some ⟨"ip", none⟩) none rfl (by decide) rfl rfl rfl rfl rfl

/-- A call that is not a create is not an internal-database create. -/
theorem isNotionCreateIn_of_not_create (c : Call) (h : c.isCreate = false)
    (db : Option String) : Call.isNotionCreateIn db c = false := by
  cases c <;> simp_all [Call.isCreate, Call.isNotionCreateIn]

/-- A Discord-side call is never a document-store create. -/
theorem discordSide_not_notionCreate (c : Call) (h : c.isDiscordSide = true)
    (db : Option String) : Call.isNotionCreateIn db c = false := by
  cases c <;> simp_all [Call.isDiscordSide, Call.isNotionCreateIn]

/-- `pyOrOpt` keeps a truthy first operand. -/
theorem pyOrOpt_of_true (a b : Option String) (h : pyTruthy a = true) :
    pyOrOpt a b = a := by
  cases a <;> simp_all [pyTruthy, pyOrOpt]

/-- Internal-mirror resolution issues only fetch and query requests. -/
theorem resolveInternalPage_calls (cfg : Config) (w : World) (st : St)
    (gid : String) :
    ∀ c ∈ (resolveInternalPage cfg w st gid).2.2,
      c.isCreate = false ∧ c.isUpdateCall = false := by
  intro c hc
  simp only [resolveInternalPage, notionGetPageCall,
    notionFindByGoogleEventId] at hc
  repeat' split at hc
  all_goals cases c <;> simp_all [Call.isCreate, Call.isUpdateCall]

set_option maxHeartbeats 1000000 in
/-- External-mirror resolution issues only fetch and query requests. -/
theorem resolveExternalPage_calls (cfg : Config) (w : World) (st : St)
    (gid : String) :
    ∀ c ∈ (resolveExternalPage cfg w st gid).2.2,
      c.isCreate = false ∧ c.isUpdateCall = false := by
  intro c hc
  simp only [resolveExternalPage, notionGetPageCall, notionFindByGoogleEventId,
    notionFindByMessageId] at hc
  repeat' split at hc
  all_goals cases c <;> simp_all [Call.isCreate, Call.isUpdateCall]

/-- With every page fetch and query coming back empty, internal
resolution yields no page. -/
theorem resolveInternalPage_none (cfg : Config) (w : World) (st : St)
    (gid : String)
    (hget : ∀ pid, w.notionGetPage pid = none)
    (hq : ∀ db g, w.notionQueryByGoogleId db g = none) :
    (resolveInternalPage cfg w st gid).1 = none := by
  simp only [resolveInternalPage, notionGetPageCall, notionFindByGoogleEventId]
  repeat' split
  all_goals simp_all

/-- With every page fetch and query coming back empty, external
resolution yields no page. -/
theorem resolveExternalPage_none (cfg : Config) (w : World) (st : St)
    (gid : String)
    (hget : ∀ pid, w.notionGetPage pid = none)
    (hq1 : ∀ db g, w.notionQueryByGoogleId db g = none)
    (hq2 : ∀ db m, w.notionQueryByMessageId db m = none) :
    (resolveExternalPage cfg w st gid).1 = none := by
  simp only [resolveExternalPage, notionGetPageCall, notionFindByGoogleEventId,
    notionFindByMessageId]
  repeat' split
  all_goals simp_all

/-- The external-database upsert phase never issues a create against the
internal database, provided the external database is a distinct target. -/
theorem upsertExternalPhase_no_internal_create (cfg : Config) (w : World)
    (st : St) (gid : String) (name content : Str) (dp : NotionDate)
    (cid : String) (extPage : Option Page)
    (hdb : cfg.notionExternalDbId ≠ cfg.notionInternalDbId) :
    ∀ c ∈ (upsertExternalPhase cfg w st gid name content dp cid extPage).2.2,
      Call.isNotionCreateIn cfg.notionInternalDbId c = false := by
  intro c hc
  simp only [upsertExternalPhase, notionUpdateEvent, notionCreateEvent] at hc
  repeat' split at hc
  all_goals cases c <;> simp_all [Call.isNotionCreateIn, pyOrOpt_of_true]

/-- The `メッセージID` write-back only issues page updates. -/
theorem msgIdWriteBack_calls (w : World) (pg : Option Page)
    (dopt : Option String) :
    ∀ c ∈ msgIdWriteBack w pg dopt,
      ∃ pid props, c = Call.notionUpdate pid props := by
  intro c hc
  simp only [msgIdWriteBack, notionUpdateEvent] at hc
  repeat' split at hc
  all_goals
    first
    | exact absurd hc (List.not_mem_nil c)
    | (simp only [List.mem_singleton] at hc; subst hc; exact ⟨_, _, rfl⟩)

/-- The active tail (external phase, Discord mirroring, id write-backs)
never issues a create against the internal database, provided the
external database is a distinct target. -/
theorem upsertActiveTail_no_internal_create (cfg : Config) (w : World)
    (st : St) (event : GEvent) (name content : Str) (dp : NotionDate)
    (cid : String) (page extPage : Option Page)
    (hdb : cfg.notionExternalDbId ≠ cfg.notionInternalDbId) :
    ∀ c ∈ (upsertActiveTail cfg w st event name content dp cid page extPage).2,
      Call.isNotionCreateIn cfg.notionInternalDbId c = false := by
  intro c hc
  simp only [upsertActiveTail] at hc
  rcases List.mem_append.mp hc with h123 | h4
  · rcases List.mem_append.mp h123 with h12 | h3
    · rcases List.mem_append.mp h12 with h1 | h2
      · exact upsertExternalPhase_no_internal_create cfg w st event.id name
          content dp cid extPage hdb c h1
      · exact discordSide_not_notionCreate c
          (syncToDiscord_calls cfg w _ event page none c h2) _
    · obtain ⟨pid, props, rfl⟩ := msgIdWriteBack_calls w page _ c h3
      rfl
  · obtain ⟨pid, props, rfl⟩ := msgIdWriteBack_calls w _ _ c h4
    rfl

/-- A parseable event start also yields a raw Notion date start. -/
theorem rawOfPart_of_parse (e : GEvent) (s en : DT)
    (h : parseGoogleEventTimes e = some (s, en)) :
    ∃ r, rawOfPart e.start = some r := by
  cases hdt : e.start.dateTime with
  | some d => exact ⟨.fromDateTime d, by simp [rawOfPart, hdt]⟩
  | none =>
    cases hd : e.start.date with
    | some dd => exact ⟨.fromDate dd, by simp [rawOfPart, hdt, hd]⟩
    | none =>
      exfalso
      simp [parseGoogleEventTimes, parsePart, hdt, hd] at h

set_option maxHeartbeats 1000000 in
/-- C1 (amended): for an active event with no existing mirror anywhere
whose end time lies before now, a reconciliation pass issues zero create
calls against the internal document database (the stale-event skip); the
external document database and the chat platform are not covered by the
skip and may still receive creates. -/
theorem c1_stale_event_skip_internal_only
    (cfg : Config) (w : World) (st : St) (event : GEvent) (s en : DT)
    (hid : event.id ≠ "")
    (hstat : event.status ≠ some "cancelled")
    (hget : ∀ pid, w.notionGetPage pid = none)
    (hq1 : ∀ db g, w.notionQueryByGoogleId db g = none)
    (hq2 : ∀ db m, w.notionQueryByMessageId db m = none)
    (htimes : parseGoogleEventTimes event = some (s, en))
    (hend : en.utcMinutes ≤ w.nowUtcMinutes)
    (hdb : cfg.notionExternalDbId ≠ cfg.notionInternalDbId) :
    (upsertEvent cfg w st event).2.countP
      (Call.isNotionCreateIn cfg.notionInternalDbId) = 0 := by
  have hri := resolveInternalPage_none cfg w st event.id hget hq1
  have hre := resolveExternalPage_none cfg w
    (resolveInternalPage cfg w st event.id).2.1 event.id hget hq1 hq2
  obtain ⟨r, hr⟩ := rawOfPart_of_parse event s en htimes
  have hbn : buildNotionDate event = some ⟨r, rawOfPart event.endPart⟩ := by
    simp [buildNotionDate, hr]
  have hskip : decide (en.utcMinutes ≤ w.nowUtcMinutes) = true := by
    simp [hend]
  rw [List.countP_eq_zero]
  intro c hc
  simp [upsertEvent, hid, hstat, hri, hre, htimes, hbn, hend] at hc
  rcases hc with h1 | h2 | h3
  · have hf := (resolveInternalPage_calls cfg w st event.id c h1).1
    simp [isNotionCreateIn_of_not_create c hf]
  · have hf := (resolveExternalPage_calls cfg w
      (resolveInternalPage cfg w st event.id).2.1 event.id c h2).1
    simp [isNotionCreateIn_of_not_create c hf]
  · have hf := upsertActiveTail_no_internal_create cfg w
      (resolveExternalPage cfg w (resolveInternalPage cfg w st event.id).2.1
        event.id).2.1 event
      (pyOr event.summary "(no title)".toList)
      (pyOr event.description "(no content)".toList)
      ⟨r, rawOfPart event.endPart⟩
      (pyOrStr event.creatorEmail "unknown") none none hdb c h3
    simp [hf]

/-- C1 witness: the amended theorem applied to the concrete stale event of
the counterexample — zero internal-database creates. -/
theorem c1_witness :
    (upsertEvent cxCfg c1World {} c1Event).2.countP
      (Call.isNotionCreateIn cxCfg.notionInternalDbId) = 0 := by
  exact c1_stale_event_skip_internal_only cxCfg c1World {} c1Event
    ⟨0, 540⟩ ⟨60, 540⟩ (by decide) (by decide) (fun _ => rfl)
    (fun _ _ => rfl) (fun _ _ => rfl) rfl (by decide) (by decide)

/-- The event-loop fold leaves the pass-failed flag untouched when no
upsert raises. -/
theorem syncStep_no_error (cfg : Config) (w : World)
    (hnr : ∀ e, w.upsertRaises e = false) :
    ∀ (evs : List GEvent) (st : St) (he : Bool) (cs : List Call),
      (evs.foldl (syncStep cfg w) (st, he, cs)).2.1 = he := by
  intro evs
  induction evs with
  | nil => intro st he cs; rfl
  | cons e rest ih =>
    intro st he cs
    simp only [List.foldl_cons, syncStep, hnr e, Bool.false_eq_true, if_false]
    exact ih _ _ _

/-- The poller's trace consists solely of Google listing requests. -/
theorem listUpdatedEvents_calls (cfg : Config) (w : World) (cur : Option DT) :
    ∀ c ∈ (listUpdatedEvents cfg w cur).2, ∃ r, c = Call.googleList r := by
  intro c hc
  simp only [listUpdatedEvents] at hc
  repeat' split at hc
  all_goals
    first
    | exact absurd hc (List.not_mem_nil c)
    | (simp only [List.mem_singleton] at hc; subst hc; exact ⟨_, rfl⟩)
    | (simp only [List.mem_cons, List.not_mem_nil, or_false] at hc
       rcases hc with rfl | rfl
       · exact ⟨_, rfl⟩
       · exact ⟨_, rfl⟩)

/-- C6 (amended): a failure of the calendar listing call itself is
swallowed: the pass reconciles no events (the listing comes back as an
empty batch), the coordinator lock is released (the gate leaves the lock
as it found it), yet `sync_calendar` reports success and the HTTP surface
answers 200 — not a non-success status; a skipped pass (cooldown or
in-progress) likewise answers success. -/
theorem c6_listing_failure_swallowed :
    (∀ (cfg : Config) (w : World) (st : St) (co : CoordFnState) (now : Int),
      pyTruthy cfg.notionToken = true →
      pyTruthy cfg.notionInternalDbId = true →
      pyTruthy cfg.googleCalendarId = true →
      cfg.googleServiceOk = true →
      (∀ req, w.googleList req = .errOther) →
      ¬ (now - co.lastRunEpoch < max 0 cfg.cooldownSeconds) →
      co.lockHeld = false →
      (listUpdatedEvents cfg w st.cursor).1 = [] ∧
      runSyncGuarded cfg w st co now =
        (true, .done, { st with cursor := some ⟨w.nowUtcMinutes, 0⟩ },
          { co with lastRunEpoch := w.endEpochSeconds },
          (listUpdatedEvents cfg w st.cursor).2) ∧
      (manualSync cfg w st co now).1 = 200 ∧
      (runSyncGuarded cfg w st co now).2.2.2.1.lockHeld = co.lockHeld) ∧
    (∀ (cfg : Config) (w : World) (st : St) (dd : DedupSt) (co : CoordFnState)
       (now : Int),
      now - co.lastRunEpoch < max 0 cfg.cooldownSeconds →
      (manualSync cfg w st co now).1 = 200 ∧
      (gcalWebhook cfg w st dd co now {}).1 = 204) := by
  constructor
  · intro cfg w st co now h1 h2 h3 hsvc herr hcd hlk
    have hl1 : (listUpdatedEvents cfg w st.cursor).1 = [] := by
      simp [listUpdatedEvents, hsvc, h3, herr]
    have hsync : syncCalendar cfg w st =
        (true, { st with cursor := some ⟨w.nowUtcMinutes, 0⟩ },
          (listUpdatedEvents cfg w st.cursor).2) := by
      simp [syncCalendar, h1, h2, h3, hl1, maxDT]
    refine ⟨hl1, ?_, ?_, ?_⟩
    · simp [runSyncGuarded, hcd, hlk, hsync]
    · simp [manualSync, runSyncGuarded, hcd, hlk, hsync]
    · simp [runSyncGuarded, hcd, hlk, hsync]
  · intro cfg w st dd co now hcd
    constructor
    · simp [manualSync, runSyncGuarded, hcd]
    · simp [gcalWebhook, runSyncGuarded, hcd]

/-- C6 witness: the amended theorem applied to a concrete failed listing
(manual trigger answers 200) and to a concrete cooldown skip. -/
theorem c6_witness :
    ((listUpdatedEvents cxCfg c6World c6St.cursor).1 = [] ∧
     (manualSync cxCfg c6World c6St c6Co 0).1 = 200) ∧
    ((manualSync cxCfg c6World c6St ⟨0, false⟩ 0).1 = 200 ∧
     (gcalWebhook cxCfg c6World c6St ⟨100, [], ∅⟩ ⟨0, false⟩ 0 {}).1 = 204) := by
  constructor
  · have h := c6_listing_failure_swallowed.1 cxCfg c6World c6St c6Co 0
      rfl rfl rfl rfl (fun _ => rfl) (by decide) rfl
    exact ⟨h.1, h.2.2.1⟩
  · exact c6_listing_failure_swallowed.2 cxCfg c6World c6St ⟨100, [], ∅⟩
      ⟨0, false⟩ 0 (by decide)

/-- C7 (amended): on first run the poller issues a bounded 30-day-lookback
incremental listing (not an unbounded full listing); only the cursor-too-
old signal (the 410 error) triggers the unbounded full listing including
cancelled events; that fallback is not treated as a pass failure; and a
cancelled event present only in the full listing still triggers the
deletion of its mirrors. -/
theorem c7_cursor_recovery :
    (∀ (cfg : Config) (w : World),
      cfg.googleServiceOk = true → pyTruthy cfg.googleCalendarId = true →
      (listUpdatedEvents cfg w none).2.head? =
        some (Call.googleList (.delta ⟨w.nowUtcMinutes - 30 * 1440, 0⟩))) ∧
    (∀ (cfg : Config) (w : World) (cur : Option DT) (evs : List GEvent),
      cfg.googleServiceOk = true → pyTruthy cfg.googleCalendarId = true →
      (∀ d, w.googleList (.delta d) = .err410) →
      w.googleList .full = .ok evs →
      (listUpdatedEvents cfg w cur).1 = evs ∧
      (listUpdatedEvents cfg w cur).2.countP Call.isGoogleFull = 1) ∧
    (∀ (cfg : Config) (w : World) (st : St),
      pyTruthy cfg.notionToken = true → pyTruthy cfg.notionInternalDbId = true →
      pyTruthy cfg.googleCalendarId = true →
      (∀ e, w.upsertRaises e = false) →
      (syncCalendar cfg w st).1 = true) ∧
    (∀ (cfg : Config) (w : World) (st : St) (event : GEvent)
       (ipid epid : String) (ipg epg : Page),
      pyTruthy cfg.notionToken = true → pyTruthy cfg.notionInternalDbId = true →
      pyTruthy cfg.googleCalendarId = true → cfg.googleServiceOk = true →
      (∀ d, w.googleList (.delta d) = .err410) →
      w.googleList .full = .ok [event] →
      (∀ e, w.upsertRaises e = false) →
      event.id ≠ "" → event.status = some "cancelled" →
      st.notionInternalMap event.id = some ipid → ipid ≠ "" →
      w.notionGetPage ipid = some ipg → ipg.id = ipid →
      pyTruthy cfg.notionExternalDbId = true →
      st.notionExternalMap event.id = some epid → epid ≠ "" →
      w.notionGetPage epid = some epg → epg.id = epid →
      ipid ≠ epid → discordSyncAvailable cfg = true →
      (syncCalendar cfg w st).2.2.countP (Call.isArchiveOf ipid) = 1 ∧
      (syncCalendar cfg w st).2.2.countP (Call.isArchiveOf epid) = 1 ∧
      (syncCalendar cfg w st).1 = true) := by
  refine ⟨?_, ?_, ?_, ?_⟩
  · intro cfg w hsvc hcal
    simp only [listUpdatedEvents, hsvc, hcal]
    repeat' split
    all_goals simp_all
  · intro cfg w cur evs hsvc hcal h410 hfull
    constructor <;> simp [listUpdatedEvents, hsvc, hcal, h410, hfull,
      Call.isGoogleFull]
  · intro cfg w st h1 h2 h3 hnr
    simp [syncCalendar, h1, h2, h3, syncStep_no_error cfg w hnr]
  · intro cfg w st event ipid epid ipg epg h1 h2 h3 hsvc h410 hfull hnr
      hgid hst hmap1 hip hw1 hipg hext hmap2 hep hw2 hepg hne hav
    have hl1 : (listUpdatedEvents cfg w st.cursor).1 = [event] := by
      simp [listUpdatedEvents, hsvc, h3, h410, hfull]
    have hup := upsertEvent_cancelled_two_mirrors cfg w st event ipid epid
      ipg epg hgid hst hmap1 hip hw1 hipg hext hmap2 hep hw2 hepg hne hav
    have htr : (syncCalendar cfg w st).2.2 =
        (listUpdatedEvents cfg w st.cursor).2 ++ (upsertEvent cfg w st event).2 := by
      simp [syncCalendar, h1, h2, h3, hl1, syncStep, hnr event]
    have hres : (syncCalendar cfg w st).1 = true := by
      simp [syncCalendar, h1, h2, h3, syncStep_no_error cfg w hnr]
    have hz : ∀ pid,
        (listUpdatedEvents cfg w st.cursor).2.countP (Call.isArchiveOf pid) = 0 := by
      intro pid
      rw [List.countP_eq_zero]
      intro c hcm
      obtain ⟨r, rfl⟩ := listUpdatedEvents_calls cfg w st.cursor c hcm
      simp [Call.isArchiveOf]
    refine ⟨?_, ?_, hres⟩
    · rw [htr, List.countP_append, hz ipid, hup.1]
    · rw [htr, List.countP_append, hz epid, hup.2.1]

/-- C7 witness: the amended theorem applied to a concrete cursor-expiry
recovery whose full listing carries one cancelled event with two resolved
mirrors. -/
theorem c7_witness :
    (syncCalendar cxCfg c7cWorld c2St).2.2.countP (Call.isArchiveOf "ip") = 1 ∧
    (syncCalendar cxCfg c7cWorld c2St).2.2.countP (Call.isArchiveOf "ep") = 1 ∧
    (syncCalendar cxCfg c7cWorld c2St).1 = true := by
  exact c7_cursor_recovery.2.2.2 cxCfg c7cWorld c2St c2Event "ip" "ep"
    ⟨"ip", none⟩ ⟨"ep", none⟩ rfl rfl rfl rfl (fun _ => rfl) rfl (fun _ => rfl)
    (by decide) rfl rfl (by decide) rfl rfl rfl rfl (by decide) rfl rfl
    (by decide) rfl

/-- The Discord description is always clipped to the configured limit. -/
theorem buildDiscordDescription_le (cfg : Config) (desc : Option Str)
    (gid : String) :
    (buildDiscordDescription cfg desc gid).length ≤ cfg.descriptionLimit := by
  simp only [buildDiscordDescription, List.length_take]
  exact Nat.min_le_left _ _

/-- Every Discord payload `sync_to_discord` sends (create or update) is
the one `build_discord_payload` produced for the event. -/
theorem syncToDiscord_payload_origin (cfg : Config) (w : World) (st : St)
    (ev : GEvent) (pg fb : Option Page) :
    (∀ q, Call.discordCreate q ∈ (syncToDiscord cfg w st ev pg fb).2.2 →
      buildDiscordPayload cfg ev = some q) ∧
    (∀ d q, Call.discordUpdate d q ∈ (syncToDiscord cfg w st ev pg fb).2.2 →
      buildDiscordPayload cfg ev = some q) := by
  have hres := syncToDiscordResolve_calls cfg w st ev.id pg fb
  have hact := syncToDiscordAct_calls cfg w
    (syncToDiscordResolve cfg w st ev.id pg fb).2.1 ev ev.id
    (syncToDiscordResolve cfg w st ev.id pg fb).1
  constructor
  · intro q hq
    simp only [syncToDiscord] at hq
    repeat' split at hq
    all_goals try (exact absurd hq (List.not_mem_nil _))
    all_goals simp only [List.append_nil] at hq
    all_goals
      first
      | (have hx := hres _ hq; simp_all)
      | (rcases List.mem_append.mp hq with h | h
         · have hx := hres _ h; simp_all
         · first
           | exact hact.2.1 q h
           | (simp only [List.mem_singleton] at h; simp_all))
  · intro d q hq
    simp only [syncToDiscord] at hq
    repeat' split at hq
    all_goals try (exact absurd hq (List.not_mem_nil _))
    all_goals simp only [List.append_nil] at hq
    all_goals
      first
      | (have hx := hres _ hq; simp_all)
      | (rcases List.mem_append.mp hq with h | h
         · have hx := hres _ h; simp_all
         · first
           | exact hact.2.2.1 d q h
           | (simp only [List.mem_singleton] at h; simp_all))

/-- C8 (amended): title, description and location are clipped to the chat
platform's limits in every payload `build_discord_payload` produces, and
every chat-platform create and update sends exactly such a payload; the
document-store create, by contrast, passes its fields through unclipped
(the payload carries the caller's text verbatim). -/
theorem c8_clipping_discord_only :
    (∀ (cfg : Config) (e : GEvent) (p : DiscordPayload),
      buildDiscordPayload cfg e = some p →
      p.name.length ≤ cfg.nameLimit ∧
      p.description.length ≤ cfg.descriptionLimit ∧
      p.location.length ≤ cfg.locationLimit) ∧
    (∀ (cfg : Config) (w : World) (st : St) (ev : GEvent) (pg fb : Option Page)
       (q : DiscordPayload),
      Call.discordCreate q ∈ (syncToDiscord cfg w st ev pg fb).2.2 →
      buildDiscordPayload cfg ev = some q) ∧
    (∀ (cfg : Config) (w : World) (st : St) (ev : GEvent) (pg fb : Option Page)
       (d : String) (q : DiscordPayload),
      Call.discordUpdate d q ∈ (syncToDiscord cfg w st ev pg fb).2.2 →
      buildDiscordPayload cfg ev = some q) ∧
    (∀ (cfg : Config) (w : World) (name content : Str) (date : NotionDate)
       (cid : String) (url gid : Option String) (loc : Option Str)
       (db mid : Option String),
      (notionCreateEvent cfg w name content date cid url gid loc db mid).2.head? =
        some (Call.notionCreate
          { dbId := pyOrOpt db cfg.notionInternalDbId
            name := name
            content := content
            date := date
            messageId := (match mid with | some m => m | none => "")
            creatorId := cid
            eventUrl := url
            googleEventId := gid
            location := loc })) := by
  refine ⟨?_, ?_, ?_, ?_⟩
  · intro cfg e p hp
    simp only [buildDiscordPayload] at hp
    split at hp
    · exact absurd hp (by simp)
    · split at hp
      · exact absurd hp (by simp)
      · injection hp with hp
        subst hp
        refine ⟨?_, buildDiscordDescription_le cfg e.description e.id, ?_⟩
        · simp only [List.length_take]
          exact Nat.min_le_left _ _
        · simp only [List.length_take]
          exact Nat.min_le_left _ _
  · intro cfg w st ev pg fb q hq
    exact (syncToDiscord_payload_origin cfg w st ev pg fb).1 q hq
  · intro cfg w st ev pg fb d q hq
    exact (syncToDiscord_payload_origin cfg w st ev pg fb).2 d q hq
  · intro cfg w name content date cid url gid loc db mid
    simp only [notionCreateEvent]
    split <;> rfl

/-- C8 witness: the amended theorem applied to the concrete payload built
for `c10Event` under the default limits. -/
theorem c8_witness :
    c10Payload.name.length ≤ cxCfg.nameLimit ∧
    c10Payload.description.length ≤ cxCfg.descriptionLimit ∧
    c10Payload.location.length ≤ cxCfg.locationLimit := by
  exact c8_clipping_discord_only.1 cxCfg c10Event c10Payload rfl

/-- C5: a duplicate guard of capacity `C` holds a bounded FIFO; inserting
`C + 1` distinct nonempty tokens evicts exactly the first one, so that
registering the first token again reports it as not seen, while each of
the most recent `C` tokens is reported as seen. -/
theorem c5_dedup_bound (C : Nat) (t0 : String) (rest : List String)
    (hC : 1 ≤ C)
    (hlen : (t0 :: rest).length = C + 1)
    (hnd : (t0 :: rest).Nodup)
    (hne : ∀ x ∈ t0 :: rest, x ≠ "") :
    (registerMessageId (registerAll ⟨C, [], ∅⟩ (t0 :: rest)) t0).1 = false ∧
    ∀ t ∈ rest, (registerMessageId (registerAll ⟨C, [], ∅⟩ (t0 :: rest)) t).1 = true := by
  rcases List.eq_nil_or_concat rest with hrest | ⟨mid, tl, rfl⟩
  · subst hrest; simp at hlen; omega
  · simp only [List.concat_eq_append] at hlen hnd hne ⊢
    have hsplit : t0 :: (mid ++ [tl]) = (t0 :: mid) ++ [tl] := by simp
    have hnd' : ((t0 :: mid) ++ [tl]).Nodup := by rwa [hsplit] at hnd
    have hprefix_nd : (t0 :: mid).Nodup := (List.nodup_append.mp hnd').1
    have htl_notmem : tl ∉ t0 :: mid := by
      intro hmem
      exact ((List.nodup_append.mp hnd').2.2 hmem) (by simp)
    have hprefix_ne : ∀ x ∈ t0 :: mid, x ≠ "" := by
      intro x hx
      apply hne
      rw [hsplit]
      exact List.mem_append_left _ hx
    have htl_ne : tl ≠ "" := by
      apply hne
      rw [hsplit]
      exact List.mem_append_right _ (by simp)
    have hprefix_len : (t0 :: mid).length = C := by
      rw [hsplit] at hlen
      simp at hlen ⊢
      omega
    obtain ⟨hm, hids, hset⟩ :=
      registerAll_build C (t0 :: mid) hprefix_nd hprefix_ne (le_of_eq hprefix_len)
    rw [hsplit, registerAll_append]
    have htl_notset : tl ∉ (registerAll ⟨C, [], ∅⟩ (t0 :: mid)).idSet := by
      rw [hset]
      simpa [List.mem_toFinset] using htl_notmem
    have hmidlen : mid.length + 1 = C := by simpa using hprefix_len
    have htl_t0 : tl ≠ t0 := by
      intro h; exact htl_notmem (h ▸ List.mem_cons_self t0 mid)
    have htl_mid : tl ∉ mid := fun h => htl_notmem (List.mem_cons_of_mem _ h)
    set X := (registerMessageId (registerAll ⟨C, [], ∅⟩ (t0 :: mid)) tl).2 with hX
    have hreg : X.idSet = insert tl (mid.toFinset.erase t0) := by
      rw [hX]
      simp [registerMessageId, htl_ne, htl_t0, htl_mid, hm, hids, hset, hmidlen]
    clear_value X
    have ht0_mid : t0 ∉ mid := by
      intro hmem
      exact (List.nodup_cons.mp hprefix_nd).1 hmem
    have ht0_tl : t0 ≠ tl := fun h => htl_t0 h.symm
    have ht0_ne : t0 ≠ "" := hne t0 (List.mem_cons_self _ _)
    constructor
    · have ht0_notset : t0 ∉ X.idSet := by
        rw [hreg]
        simp [Finset.mem_insert, ht0_tl]
      simp [registerMessageId, ht0_ne, ht0_notset]
    · intro t ht
      have hcases : t ∈ mid ∨ t = tl := by simpa using ht
      have ht_ne : t ≠ "" := by
        apply hne
        simp only [List.mem_cons, List.mem_append, List.mem_singleton]
        tauto
      have ht_set : t ∈ X.idSet := by
        rw [hreg]
        rcases hcases with hmid | rfl
        · have htne0 : t ≠ t0 := fun h => ht0_mid (h ▸ hmid)
          exact Finset.mem_insert_of_mem
            (Finset.mem_erase.mpr ⟨htne0, by simp [List.mem_toFinset, hmid]⟩)
        · exact Finset.mem_insert_self _ _
      simp [registerMessageId, ht_ne, ht_set]

/-- C5 witness: capacity 1, tokens "a" then "b": "a" is evicted and
reported not seen, "b" is reported seen. -/
theorem c5_witness :
    (registerMessageId (registerAll ⟨1, [], ∅⟩ ["a", "b"]) "a").1 = false ∧
    ∀ t ∈ ["b"], (registerMessageId (registerAll ⟨1, [], ∅⟩ ["a", "b"]) t).1 = true := by
  exact c5_dedup_bound 1 "a" ["b"] (by decide) (by decide) (by decide)
    (by intro x hx; fin_cases hx <;> decide)

end GcalSync

namespace DiscordBot

/-- C3: a chat-platform scheduled event whose creator identity (either the
raw `creator_id` or the attached creator object's id) equals the bot's
own identity is skipped entirely by all three inbound handlers — no
calendar call and no document-store call is made. -/
theorem c3_loop_prevention
    (cfg : BotConfig) (w : BotWorld) (e other : DiscordEvent) (u : Int)
    (hu : cfg.botUser = some u)
    (hc : e.creatorId = some u ∨ e.creatorObjId = some u) :
    onScheduledEventCreate cfg w e = [] ∧
    onScheduledEventUpdate cfg w other e = [] ∧
    onScheduledEventDelete cfg w e = [] := by
  have hb : isBotCreatedScheduledEvent cfg.botUser e = true := by
    unfold isBotCreatedScheduledEvent
    rw [hu]
    rcases hc with h | h <;> simp [h]
  refine ⟨?_, ?_, ?_⟩ <;>
    simp [onScheduledEventCreate, onScheduledEventUpdate,
      onScheduledEventDelete, hb]

/-- C3 witness: a concrete bot-created event is skipped by all three
handlers. -/
theorem c3_witness :
    onScheduledEventCreate { botUser := some 42 } {} { id := 1, creatorId := some 42 } = [] ∧
    onScheduledEventUpdate { botUser := some 42 } {} { id := 2 } { id := 1, creatorId := some 42 } = [] ∧
    onScheduledEventDelete { botUser := some 42 } {} { id := 1, creatorId := some 42 } = [] := by
  exact c3_loop_prevention { botUser := some 42 } {} { id := 1, creatorId := some 42 }
    { id := 2 } 42 rfl (Or.inl rfl)

end DiscordBot
